import Mathlib

/-!
Verification development for the `rosu-pp-performanceplus` difficulty and
performance evaluator (osu!-family rhythm games).

The relevant Rust code is shallowly embedded in Lean:
* `f64` arithmetic is modelled by `ℝ` (exact real arithmetic; transcendental
  functions `tanh`, `cos`, `sin`, `atan2`, `powf` become their `Real`
  counterparts);
* machine integers (`u32`, `usize`, `i32`) are modelled by `ℕ` / `ℤ`;
* the purely integral/rational hitresult synthesis `generate_state` is
  embedded computably over `ℚ` so that concrete runs can be decided.

Definitions keep the source names (snake case turned into camel case) and
mirror the source control flow branch by branch.
-/

namespace PPlus

open Real

/-! ## Transition helpers (`util/pplus.rs`)

The file `util/pplus.rs` is referenced throughout the osu! pipeline but is not
part of the provided sources, so the helpers are modelled from the spec, §9.
-/

/-- Modelled from the spec: `pplus::transition_to_true(x, start, width)` from
the missing `util/pplus.rs`. Per spec §9 it is `0` for `x ≤ start`, `1` for
`x ≥ start + width`, and a smooth Hermite cubic (smoothstep
`t² (3 − 2 t)` with `t = (x − start)/width`) in between. -/
noncomputable def transitionToTrue (x start width : ℝ) : ℝ :=
  if x ≤ start then 0
  else if start + width ≤ x then 1
  else ((x - start) / width) ^ 2 * (3 - 2 * ((x - start) / width))

/-- Modelled from the spec: `pplus::transition_to_false(x, start, width)` from
the missing `util/pplus.rs`; per spec §9 it equals `1 − transition_to_true`. -/
noncomputable def transitionToFalse (x start width : ℝ) : ℝ :=
  1 - transitionToTrue x start width

/-- Modelled from the spec: `pplus::is_ratio_equal(ratio, a, b)` from the
missing `util/pplus.rs`. Per spec §9: `|a − ratio·b| ≤ 0.15·ratio·b`
(15 % tolerance). -/
noncomputable def isRatioEqual (ratio a b : ℝ) : Prop :=
  |a - ratio * b| ≤ 0.15 * ratio * b

/-- Modelled from the spec: `pplus::is_ratio_equal_greater(ratio, a, b)` from
the missing `util/pplus.rs`; spec §9 says "similar for `_greater`", i.e. `a`
reaches at least `ratio·b` up to the 15 % tolerance. -/
noncomputable def isRatioEqualGreater (ratio a b : ℝ) : Prop :=
  ratio * b - 0.15 * ratio * b ≤ a

/-- Modelled from the spec: `pplus::is_ratio_equal_less(ratio, a, b)` from the
missing `util/pplus.rs`; spec §9 says "similar for `_less`", i.e. `a` stays
below `ratio·b` up to the 15 % tolerance. -/
noncomputable def isRatioEqualLess (ratio a b : ℝ) : Prop :=
  a ≤ ratio * b + 0.15 * ratio * b

/-- Modelled from the spec: `pplus::is_roughly_equal(a, b)` from the missing
`util/pplus.rs`: equality of the two strain times up to the usual 15 %
tolerance (the ratio-1 case of `is_ratio_equal`). -/
noncomputable def isRoughlyEqual (a b : ℝ) : Prop :=
  isRatioEqual 1 a b

noncomputable instance (ratio a b : ℝ) : Decidable (isRatioEqual ratio a b) := by
  unfold isRatioEqual; infer_instance

noncomputable instance (ratio a b : ℝ) : Decidable (isRatioEqualGreater ratio a b) := by
  unfold isRatioEqualGreater; infer_instance

noncomputable instance (ratio a b : ℝ) : Decidable (isRatioEqualLess ratio a b) := by
  unfold isRatioEqualLess; infer_instance

noncomputable instance (a b : ℝ) : Decidable (isRoughlyEqual a b) := by
  unfold isRoughlyEqual; infer_instance

/-! ## Difficulty aggregation (`src/osu/difficulty/mod.rs`, `DifficultyValues::eval`) -/

/-- `DIFFICULTY_MULTIPLIER` from `src/osu/difficulty/mod.rs`. -/
noncomputable def DIFFICULTY_MULTIPLIER : ℝ := 0.0675

/-- The eight ratings written into `OsuDifficultyAttributes` by
`DifficultyValues::eval`. -/
structure OsuRatings where
  stars : ℝ
  aim : ℝ
  jump : ℝ
  flow : ℝ
  precision : ℝ
  speed : ℝ
  stamina : ℝ
  accuracy : ℝ

/-- Embedding of `DifficultyValues::eval` (`src/osu/difficulty/mod.rs`,
lines 151–181): per-skill ratings are square roots of the skill difficulty
values scaled by `DIFFICULTY_MULTIPLIER` (except accuracy), and the star
rating is the cube-sum combination of aim and max(speed, stamina). -/
noncomputable def DifficultyValuesEval
    (aimDv flowAimDv jumpAimDv rawAimDv staminaDv rhythmDv speedDv : ℝ) :
    OsuRatings :=
  let aimRating := Real.sqrt aimDv * DIFFICULTY_MULTIPLIER
  let jumpAimRating := Real.sqrt jumpAimDv * DIFFICULTY_MULTIPLIER
  let flowAimRating := Real.sqrt flowAimDv * DIFFICULTY_MULTIPLIER
  let precisionRating := Real.sqrt (max (aimDv - rawAimDv) 0) * DIFFICULTY_MULTIPLIER
  let speedRating := Real.sqrt speedDv * DIFFICULTY_MULTIPLIER
  let staminaRating := Real.sqrt staminaDv * DIFFICULTY_MULTIPLIER
  let accuracyRating := Real.sqrt rhythmDv
  let starRating :=
    (aimRating ^ (3 : ℝ) + (max speedRating staminaRating) ^ (3 : ℝ)) ^ ((1 : ℝ) / 3) * 1.6
  { stars := starRating
    aim := aimRating
    jump := jumpAimRating
    flow := flowAimRating
    precision := precisionRating
    speed := speedRating
    stamina := staminaRating
    accuracy := accuracyRating }

lemma sqrt_mul_diffMult_nonneg (x : ℝ) : 0 ≤ Real.sqrt x * DIFFICULTY_MULTIPLIER := by
  have := Real.sqrt_nonneg x
  unfold DIFFICULTY_MULTIPLIER
  nlinarith

/-- For `a, s ≥ 0`, the cube-sum star combination dominates `max a s`. -/
lemma cube_sum_rpow_ge_max (a s : ℝ) (ha : 0 ≤ a) (hs : 0 ≤ s) :
    max a s ≤ (a ^ (3 : ℝ) + s ^ (3 : ℝ)) ^ ((1 : ℝ) / 3) := by
  set m := max a s with hm
  have hm0 : 0 ≤ m := le_trans ha (le_max_left a s)
  have hcube : m ^ (3 : ℝ) ≤ a ^ (3 : ℝ) + s ^ (3 : ℝ) := by
    rcases max_cases a s with ⟨h1, _⟩ | ⟨h1, _⟩
    · have : 0 ≤ s ^ (3 : ℝ) := Real.rpow_nonneg hs 3
      rw [hm, h1]; linarith
    · have : 0 ≤ a ^ (3 : ℝ) := Real.rpow_nonneg ha 3
      rw [hm, h1]; linarith
  have h1 : (m ^ (3 : ℝ)) ^ ((1 : ℝ) / 3) ≤ (a ^ (3 : ℝ) + s ^ (3 : ℝ)) ^ ((1 : ℝ) / 3) :=
    Real.rpow_le_rpow (Real.rpow_nonneg hm0 3) hcube (by norm_num)
  have h2 : (m ^ (3 : ℝ)) ^ ((1 : ℝ) / 3) = m := by
    rw [← Real.rpow_mul hm0]
    norm_num
  linarith [h1, h2.symm.le]

/-- **C7.** For all skill difficulty values, the aggregated attributes satisfy
`precision_rating ≥ 0` and
`stars ≥ max(aim_rating, max(speed_rating, stamina_rating)) · 1.6 · 2^(−2/3)`,
where `stars = (aim_rating³ + max(speed_rating, stamina_rating)³)^(1/3) · 1.6`
and `precision_rating = sqrt(max(aim_value − raw_aim_value, 0)) · 0.0675`
(`DifficultyValues::eval`, `src/osu/difficulty/mod.rs` lines 151–181). -/
theorem eval_precision_nonneg_and_stars_bound
    (aimDv flowAimDv jumpAimDv rawAimDv staminaDv rhythmDv speedDv : ℝ) :
    0 ≤ (DifficultyValuesEval aimDv flowAimDv jumpAimDv rawAimDv staminaDv rhythmDv speedDv).precision ∧
      max (DifficultyValuesEval aimDv flowAimDv jumpAimDv rawAimDv staminaDv rhythmDv speedDv).aim
          (max (DifficultyValuesEval aimDv flowAimDv jumpAimDv rawAimDv staminaDv rhythmDv speedDv).speed
            (DifficultyValuesEval aimDv flowAimDv jumpAimDv rawAimDv staminaDv rhythmDv speedDv).stamina)
          * 1.6 * (2 : ℝ) ^ (-(2 : ℝ) / 3) ≤
        (DifficultyValuesEval aimDv flowAimDv jumpAimDv rawAimDv staminaDv rhythmDv speedDv).stars := by
  unfold DifficultyValuesEval
  simp only
  constructor
  · exact sqrt_mul_diffMult_nonneg _
  · set a := Real.sqrt aimDv * DIFFICULTY_MULTIPLIER with ha_def
    set sp := Real.sqrt speedDv * DIFFICULTY_MULTIPLIER with hsp_def
    set st := Real.sqrt staminaDv * DIFFICULTY_MULTIPLIER with hst_def
    have ha : 0 ≤ a := sqrt_mul_diffMult_nonneg _
    have hsp : 0 ≤ sp := sqrt_mul_diffMult_nonneg _
    have hst : 0 ≤ st := sqrt_mul_diffMult_nonneg _
    have hs : 0 ≤ max sp st := le_trans hsp (le_max_left _ _)
    have hM : 0 ≤ max a (max sp st) := le_trans ha (le_max_left _ _)
    have hkey : max a (max sp st) ≤ (a ^ (3 : ℝ) + (max sp st) ^ (3 : ℝ)) ^ ((1 : ℝ) / 3) :=
      cube_sum_rpow_ge_max a (max sp st) ha hs
    have hpow : (2 : ℝ) ^ (-(2 : ℝ) / 3) ≤ 1 := by
      rw [show (-(2 : ℝ) / 3) = -((2 : ℝ) / 3) by ring]
      calc (2 : ℝ) ^ (-((2 : ℝ) / 3)) ≤ (2 : ℝ) ^ (0 : ℝ) := by
            apply Real.rpow_le_rpow_of_exponent_le (by norm_num) (by norm_num)
        _ = 1 := Real.rpow_zero 2
    have hpow0 : 0 ≤ (2 : ℝ) ^ (-(2 : ℝ) / 3) := Real.rpow_nonneg (by norm_num) _
    calc max a (max sp st) * 1.6 * (2 : ℝ) ^ (-(2 : ℝ) / 3)
        ≤ max a (max sp st) * 1.6 * 1 := by
          apply mul_le_mul_of_nonneg_left hpow (by nlinarith)
      _ = max a (max sp st) * 1.6 := by ring
      _ ≤ (a ^ (3 : ℝ) + (max sp st) ^ (3 : ℝ)) ^ ((1 : ℝ) / 3) * 1.6 := by nlinarith
/-! ## Hit objects and difficulty objects
(`src/osu/difficulty/object.rs`)
-/

/-- 2D position (the source uses `f32` pairs; modelled over `ℝ`). -/
structure Pos where
  x : ℝ
  y : ℝ

def Pos.add (a b : Pos) : Pos := ⟨a.x + b.x, a.y + b.y⟩

def Pos.sub (a b : Pos) : Pos := ⟨a.x - b.x, a.y - b.y⟩

noncomputable def Pos.length (p : Pos) : ℝ := Real.sqrt (p.x ^ 2 + p.y ^ 2)

def Pos.dot (a b : Pos) : ℝ := a.x * b.x + a.y * b.y

/-- Modelled from the spec: `PLAYFIELD_BASE_SIZE` (referenced from
`src/osu/difficulty/skills/aim.rs` but defined in the missing `src/osu/mod.rs`);
the osu! playfield measures 512×384 pixels ("playfield centre",
"playfield_height/4" in spec §4.2). -/
def PLAYFIELD_BASE_SIZE : Pos := ⟨512, 384⟩

/-- The kind of a converted hit object (`OsuObjectKind`): circle, slider
(with its precomputed lazy cursor data and raw end time), or spinner. -/
inductive OsuObjectKind where
  | circle : OsuObjectKind
  | slider (lazyEndPos : Pos) (lazyTravelDist : ℝ) (endTime : ℝ) : OsuObjectKind
  | spinner (endTime : ℝ) : OsuObjectKind

/-- A converted hit object (`OsuObject`): raw start time, position, stack
offset and kind. -/
structure OsuObject where
  startTime : ℝ
  pos : Pos
  stackOffset : Pos
  kind : OsuObjectKind

/-- `OsuObject::end_time`: the raw end time (equal to the start time for
circles). -/
def OsuObject.endTime (h : OsuObject) : ℝ :=
  match h.kind with
  | .circle => h.startTime
  | .slider _ _ t => t
  | .spinner t => t

/-- `OsuObject::stacked_pos = pos + stack_offset`. -/
def OsuObject.stackedPos (h : OsuObject) : Pos := h.pos.add h.stackOffset

def OsuObject.isSpinner (h : OsuObject) : Bool :=
  match h.kind with
  | .spinner _ => true
  | _ => false

def OsuObject.isCircle (h : OsuObject) : Bool :=
  match h.kind with
  | .circle => true
  | _ => false

/-- `OsuDifficultyObject::NORMALIZED_RADIUS`. -/
noncomputable def NORMALIZED_RADIUS : ℝ := 52.0

/-- `OsuDifficultyObject::MIN_DELTA_TIME`. -/
noncomputable def MIN_DELTA_TIME : ℝ := 50.0

/-- `OsuDifficultyObject::MIN_LAST_TWO_TIME`. -/
noncomputable def MIN_LAST_TWO_TIME : ℝ := 100.0

/-- The difficulty object (`OsuDifficultyObject` /
`OsuDifficultyNoBase`). The borrowed `base` hit object is flattened into the
fields the skills actually read: its kind, raw position and stacked position. -/
structure DiffObj where
  idx : ℕ
  baseKind : OsuObjectKind
  basePos : Pos
  baseStackedPos : Pos
  startTime : ℝ
  deltaTime : ℝ
  strainTime : ℝ
  lastTwoStrainTime : ℝ
  rawJumpDist : ℝ
  jumpDist : ℝ
  baseFlow : ℝ
  flow : ℝ
  travelDist : ℝ
  travelTime : ℝ
  angle : Option ℝ
  angleLeniency : ℝ
  preempt : ℝ
  streamBpm : ℝ

def DiffObj.baseIsSpinner (o : DiffObj) : Bool :=
  match o.baseKind with
  | .spinner _ => true
  | _ => false

def DiffObj.baseIsCircle (o : DiffObj) : Bool :=
  match o.baseKind with
  | .circle => true
  | _ => false

/-- `atan2(y, x)` via the complex argument (range `(−π, π]`). -/
noncomputable def atan2 (y x : ℝ) : ℝ := Complex.arg ⟨x, y⟩

/-- `OsuDifficultyObject::get_end_cursor_pos`: a slider's lazy end position,
otherwise the stacked position. -/
def getEndCursorPos (h : OsuObject) : Pos :=
  match h.kind with
  | .slider lazyEndPos _ _ => lazyEndPos
  | _ => h.stackedPos

/-- Embedding of `OsuDifficultyObject::set_distances`
(`src/osu/difficulty/object.rs` lines 199–241): travel time/distance from the
predecessor's kind, jump distances, and the angle from the last two
predecessors. Note the slider/spinner travel time subtracts the raw
predecessor end time from `self.start_time`, which was already divided by the
clock rate in `new`, and divides by the clock rate again. -/
noncomputable def setDistances (o : DiffObj) (lastObject : OsuObject)
    (lastLastObject : Option OsuObject) (clockRate : ℝ) (factor : ℝ) : DiffObj :=
  let o :=
    match lastObject.kind with
    | .circle => { o with travelTime := o.strainTime }
    | .slider _ lazyTravelDist _ =>
        { o with
          travelDist := lazyTravelDist * factor
          travelTime := max ((o.startTime - lastObject.endTime) / clockRate) MIN_DELTA_TIME }
    | .spinner _ =>
        { o with
          travelTime := max ((o.startTime - lastObject.endTime) / clockRate) MIN_DELTA_TIME }
  let lastCursorPos := getEndCursorPos lastObject
  let o :=
    if o.baseIsSpinner then o
    else
      let raw := (o.baseStackedPos.sub lastCursorPos).length
      { o with rawJumpDist := raw, jumpDist := raw * factor }
  match lastLastObject with
  | none => o
  | some lastLastObject =>
      let lastLastCursorPos := getEndCursorPos lastLastObject
      let v1 := lastLastCursorPos.sub lastObject.stackedPos
      let v2 := o.baseStackedPos.sub lastCursorPos
      let dot := v1.dot v2
      let det := v1.x * v2.y - v1.y * v2.x
      { o with angle := some |atan2 det dot| }

/-- The `angle_scaling_factor` option assembled by the first half of
`OsuDifficultyObject::set_flow_values` (`src/osu/difficulty/object.rs`
lines 144–172): `some 1` without a previous difficulty object or when the
strain time is ratio-0.667-or-less of the previous one; overwritten, when the
strain times are roughly equal, by the angle-derived factor blended with the
previous leniency (`0.5` for a missing/NaN angle). -/
noncomputable def angleScalingFactorOpt (o : DiffObj) (lastDiffObject : Option DiffObj) :
    Option ℝ :=
  match lastDiffObject with
  | none => some 1
  | some lastDiffObject =>
      let afterLess : Option ℝ :=
        if isRatioEqualLess 0.667 o.strainTime lastDiffObject.strainTime then some 1 else none
      if isRoughlyEqual o.strainTime lastDiffObject.strainTime then
        some (match o.angle with
          | some angle =>
              let asf := (-Real.sin (Real.cos angle * (Real.pi / 2)) + 3) / 4
              asf + (1 - asf) * lastDiffObject.angleLeniency
          | none => 0.5)
      else afterLess

/-- The `irregular_flow` accumulated by `OsuDifficultyObject::set_flow_values`
(`src/osu/difficulty/object.rs` lines 147–180): computed against the previous
difficulty object when strain times are roughly equal, then recomputed against
the one before that under the same condition (the later write wins, exactly as
in the source). -/
noncomputable def irregularFlowOf (o : DiffObj)
    (lastDiffObject lastLastDiffObject : Option DiffObj) : ℝ :=
  let fromLast :=
    match lastDiffObject with
    | none => 0
    | some lastDiffObject =>
        if isRoughlyEqual o.strainTime lastDiffObject.strainTime then
          let distanceOffset :=
            (Real.tanh ((o.streamBpm - 140) / 20) * 1.75 + 2.75) * NORMALIZED_RADIUS
          transitionToFalse o.jumpDist distanceOffset distanceOffset * lastDiffObject.baseFlow
        else 0
  match lastLastDiffObject with
  | none => fromLast
  | some lastLastDiffObject =>
      if isRoughlyEqual o.strainTime lastLastDiffObject.strainTime then
        let distanceOffset :=
          (Real.tanh ((o.streamBpm - 140) / 20) * 1.75 + 2.75) * NORMALIZED_RADIUS
        transitionToFalse o.jumpDist distanceOffset distanceOffset * lastLastDiffObject.baseFlow
      else fromLast

/-- Embedding of `OsuDifficultyObject::set_flow_values`
(`src/osu/difficulty/object.rs` lines 139–197). Note the `base_flow` distance
offset is `(tanh((stream_bpm−140)/20) + 2) · NORMALIZED_RADIUS` (line 184),
unlike the `·1.75 + 2.75` offset used for `irregular_flow`. -/
noncomputable def setFlowValues (o : DiffObj)
    (lastDiffObject lastLastDiffObject : Option DiffObj) : DiffObj :=
  let irregularFlow := irregularFlowOf o lastDiffObject lastLastDiffObject
  let o :=
    match angleScalingFactorOpt o lastDiffObject with
    | some angleScalingFactor =>
        let speedFlow := transitionToTrue o.streamBpm 90 30
        let distanceOffset := (Real.tanh ((o.streamBpm - 140) / 20) + 2) * NORMALIZED_RADIUS
        { o with baseFlow :=
            speedFlow *
              transitionToFalse o.jumpDist (distanceOffset * angleScalingFactor) distanceOffset }
    | none => { o with baseFlow := 0 }
  match lastDiffObject with
  | some _ =>
      { o with
        angleLeniency := (1 - o.baseFlow) * irregularFlow
        flow := max o.baseFlow irregularFlow }
  | none => { o with flow := o.baseFlow }

/-- Embedding of `OsuDifficultyObject::new`
(`src/osu/difficulty/object.rs` lines 87–137): clock-adjusted times, strain
times, stream bpm and preempt, followed by `set_distances` and
`set_flow_values`. -/
noncomputable def DiffObjNew (hitObject lastObject : OsuObject)
    (lastLastObject : Option OsuObject)
    (lastDiffObject lastLastDiffObject : Option DiffObj)
    (clockRate timePreempt : ℝ) (idx : ℕ) (factor : ℝ) : DiffObj :=
  let deltaTime := (hitObject.startTime - lastObject.startTime) / clockRate
  let startTime := hitObject.startTime / clockRate
  let strainTime := max deltaTime MIN_DELTA_TIME
  let lastTwoStrainTime :=
    match lastLastObject with
    | some lastLastObject =>
        max ((hitObject.startTime - lastLastObject.startTime) / clockRate) MIN_LAST_TWO_TIME
    | none => MIN_LAST_TWO_TIME
  let streamBpm := 15000 / strainTime
  let preempt := timePreempt / clockRate
  let o : DiffObj :=
    { idx := idx
      baseKind := hitObject.kind
      basePos := hitObject.pos
      baseStackedPos := hitObject.stackedPos
      startTime := startTime
      deltaTime := deltaTime
      strainTime := strainTime
      lastTwoStrainTime := lastTwoStrainTime
      rawJumpDist := 0
      jumpDist := 0
      baseFlow := 0
      flow := 0
      travelDist := 0
      travelTime := 0
      angle := none
      angleLeniency := 0
      preempt := preempt
      streamBpm := streamBpm }
  let o := setDistances o lastObject lastLastObject clockRate factor
  setFlowValues o lastDiffObject lastLastDiffObject

/-! ### C2: travel time -/

/-- A slider predecessor with raw end time 500 (raw start 400). -/
def c2LastObject : OsuObject :=
  { startTime := 400, pos := ⟨0, 0⟩, stackOffset := ⟨0, 0⟩
    kind := .slider ⟨0, 0⟩ 0 500 }

/-- A circle at raw start time 1000 following `c2LastObject`. -/
def c2HitObject : OsuObject :=
  { startTime := 1000, pos := ⟨100, 0⟩, stackOffset := ⟨0, 0⟩, kind := .circle }

/-- **C2.** With clock rate `r = 2`, current raw start time 1000 and a slider
predecessor with raw end time 500, the code computes
`travel_time = max((1000/2 − 500)/2, 50) = 50` — the current start time is
divided by the clock rate twice (once in `new`, once in `set_distances`) —
whereas dividing each raw time exactly once as the claim states gives
`max((1000 − 500)/2, 50) = 250`. -/
theorem travelTime_double_division_at_failing_input :
    (DiffObjNew c2HitObject c2LastObject none none none 2 450 1 1).travelTime = 50 ∧
      max ((c2HitObject.startTime - c2LastObject.endTime) / 2) MIN_DELTA_TIME = 250 ∧
      (50 : ℝ) ≠ 250 := by
  refine ⟨?_, ?_, by norm_num⟩
  · simp only [DiffObjNew, setDistances, setFlowValues, angleScalingFactorOpt, irregularFlowOf,
      c2HitObject, c2LastObject, OsuObject.endTime, OsuObject.stackedPos, DiffObj.baseIsSpinner,
      getEndCursorPos, MIN_DELTA_TIME, MIN_LAST_TWO_TIME]
    norm_num
  · simp only [c2HitObject, c2LastObject, OsuObject.endTime, MIN_DELTA_TIME]
    norm_num

/-! ### C3: base flow -/

/-- A difficulty object with `stream_bpm = 140` (so `tanh` vanishes in the
distance offsets), `jump_dist = 250`, no predecessor difficulty object. -/
noncomputable def c3Obj : DiffObj :=
  { idx := 1, baseKind := .circle, basePos := ⟨0, 0⟩, baseStackedPos := ⟨0, 0⟩
    startTime := 750 / 7, deltaTime := 750 / 7, strainTime := 750 / 7
    lastTwoStrainTime := 100, rawJumpDist := 250, jumpDist := 250
    baseFlow := 0, flow := 0, travelDist := 0, travelTime := 750 / 7
    angle := none, angleLeniency := 0, preempt := 450, streamBpm := 140 }

/-- **C3, counterexample.** At `stream_bpm = 140` and `jump_dist = 250` with
`angle_scaling_factor = 1`, the code's `base_flow` is `0` (the offset
`(tanh 0 + 2)·52 = 104` places 250 past the transition), while the claimed
offset `(tanh 0 · 1.75 + 2.75)·52 = 143` would give a nonzero smoothstep
value; so `base_flow` differs from the claim's formula. -/
theorem baseFlow_offset_counterexample :
    (setFlowValues c3Obj none none).baseFlow ≠
      transitionToTrue c3Obj.streamBpm 90 30 *
        transitionToFalse c3Obj.jumpDist
          ((Real.tanh ((c3Obj.streamBpm - 140) / 20) * 1.75 + 2.75) * NORMALIZED_RADIUS * 1)
          ((Real.tanh ((c3Obj.streamBpm - 140) / 20) * 1.75 + 2.75) * NORMALIZED_RADIUS) := by
  have htanh : Real.tanh ((140 - 140) / 20) = 0 := by norm_num [Real.tanh_zero]
  simp only [setFlowValues, angleScalingFactorOpt, irregularFlowOf, c3Obj, htanh]
  unfold transitionToFalse transitionToTrue NORMALIZED_RADIUS
  norm_num

/-- **C3, amended.** Whenever `base_flow` is computed for a difficulty object
with a defined `angle_scaling_factor`, the distance offset equals
`(tanh((stream_bpm − 140)/20) + 2) · NORMALIZED_RADIUS` and `base_flow`
equals `speed_flow` times the smoothstep-down transition of `jump_dist` with
center `distance_offset · angle_scaling_factor` and width `distance_offset`
(`set_flow_values`, `src/osu/difficulty/object.rs` lines 182–188). -/
theorem baseFlow_of_angleScalingFactor (o : DiffObj)
    (lastDiffObject lastLastDiffObject : Option DiffObj) (asf : ℝ)
    (h : angleScalingFactorOpt o lastDiffObject = some asf) :
    (setFlowValues o lastDiffObject lastLastDiffObject).baseFlow =
      transitionToTrue o.streamBpm 90 30 *
        transitionToFalse o.jumpDist
          ((Real.tanh ((o.streamBpm - 140) / 20) + 2) * NORMALIZED_RADIUS * asf)
          ((Real.tanh ((o.streamBpm - 140) / 20) + 2) * NORMALIZED_RADIUS) := by
  unfold setFlowValues
  rw [h]
  cases lastDiffObject <;> simp

/-- Witness for the amended C3 theorem: the concrete object `c3Obj` with no
predecessor has `angle_scaling_factor = some 1`, and its `base_flow` follows
the offset-`(tanh + 2)·52` formula. -/
theorem baseFlow_of_angleScalingFactor_witness :
    angleScalingFactorOpt c3Obj none = some 1 ∧
      (setFlowValues c3Obj none none).baseFlow =
        transitionToTrue c3Obj.streamBpm 90 30 *
          transitionToFalse c3Obj.jumpDist
            ((Real.tanh ((c3Obj.streamBpm - 140) / 20) + 2) * NORMALIZED_RADIUS * 1)
            ((Real.tanh ((c3Obj.streamBpm - 140) / 20) + 2) * NORMALIZED_RADIUS) :=
  ⟨rfl, baseFlow_of_angleScalingFactor c3Obj none none 1 rfl⟩

/-! ## Aim evaluator, flow part (`src/osu/difficulty/skills/aim.rs`) -/

/-- `AimEvaluator::calc_location_weight` (`src/osu/difficulty/skills/aim.rs`
lines 450–463): quadratic bonus from the midpoint offset from the playfield
centre, rotated by `π/3`. -/
noncomputable def calcLocationWeight (pos prevPos : Pos) : ℝ :=
  let x := (pos.x + prevPos.x) * 0.5 - PLAYFIELD_BASE_SIZE.x / 2
  let y := (pos.y + prevPos.y) * 0.5 - PLAYFIELD_BASE_SIZE.y / 2
  let angel := Real.pi / 3
  let a := (x * Real.cos angel + y * Real.sin angel) / 750
  let b := (x * Real.sin angel - y * Real.cos angel) / 1000
  let locationBonus := a * a + b * b
  1 + locationBonus

/-- `AimEvaluator::calc_flow_angle_weight`: `1 + (cos(angle) + 1)/10` for a
defined angle, `1` otherwise (a NaN angle is modelled as `none`, per the
spec's `is_null_or_nan` note in §9). -/
noncomputable def calcFlowAngleWeight (angle : Option ℝ) : ℝ :=
  match angle with
  | some angle => 1 + (Real.cos angle + 1) / 10
  | none => 1

/-- `AimEvaluator::calc_stream_jump_weight`. -/
noncomputable def calcStreamJumpWeight (jumpDist streamJumpRate distance : ℝ) : ℝ :=
  if 0 < jumpDist then
    let flowAimRevertFactor := 1 / ((Real.tanh (distance - 2) + 1) * 2.5 + distance / 5)
    (1 - streamJumpRate) * 1 + streamJumpRate * flowAimRevertFactor * distance
  else 1

/-- The `distance_rate` local of `calc_flow_pattern_weight`. -/
noncomputable def flowDistanceRate (currJumpDist prevJumpDist : ℝ) : ℝ :=
  if 0 < prevJumpDist then currJumpDist / prevJumpDist - 1 else 1

/-- The `distance_bonus` local of `calc_flow_pattern_weight`. -/
noncomputable def flowDistanceBonus (distanceRate : ℝ) : ℝ :=
  if distanceRate ≤ 0 then distanceRate * distanceRate
  else if distanceRate < 1 then (-Real.cos (Real.pi * distanceRate) + 1) / 2
  else 1

/-- The `angle_bonus` local of `calc_flow_pattern_weight` for two defined
angles. -/
noncomputable def flowAngleBonus (cangle pangle : ℝ) : ℝ :=
  let angleBonus :=
    if (0 < cangle ∧ pangle < 0) ∨ (cangle < 0 ∧ 0 < pangle) then
      let angleChange :=
        if (Real.pi - |pangle|) / 2 < |cangle| then Real.pi - |cangle|
        else |pangle| - |cangle|
      (-Real.cos (Real.sin (angleChange / 2) * Real.pi) + 1) / 2
    else if |cangle| < |pangle| then
      let angleChange := cangle - pangle
      (-Real.cos (Real.sin (angleChange / 2) * Real.pi) + 1) / 2
    else 0
  if 0 < angleBonus then
    let angleChange := |cangle| - |pangle|
    min ((-Real.cos (Real.sin (angleChange / 2) * Real.pi) + 1) / 2) angleBonus
  else angleBonus

/-- `AimEvaluator::calc_flow_pattern_weight` (`src/osu/difficulty/skills/aim.rs`
lines 338–403): distance and angle pattern bonuses against the previous
object, blended by the previous flow. -/
noncomputable def calcFlowPatternWeight (curr : DiffObj) (prev : Option DiffObj)
    (distance : ℝ) : ℝ :=
  match prev with
  | some prev =>
      let distanceRate := flowDistanceRate curr.jumpDist prev.jumpDist
      let distanceBonus := flowDistanceBonus distanceRate
      let angleBonus :=
        match curr.angle, prev.angle with
        | some cangle, some pangle => flowAngleBonus cangle pangle
        | _, _ => 0
      let streamJumpRate := transitionToTrue distanceRate 0 1
      let distanceWeight :=
        (1 + distanceBonus) * calcStreamJumpWeight curr.jumpDist streamJumpRate distance
      let angleWeight := 1 + angleBonus * (1 - streamJumpRate)
      1 + (distanceWeight * angleWeight - 1) * prev.flow
  | none => 1

/-- `AimEvaluator::calc_flow_aim_value` (`src/osu/difficulty/skills/aim.rs`
lines 229–256). Note the location weight enters halved:
`1 + (location_weight − 1)/2`. -/
noncomputable def calcFlowAimValue (curr : DiffObj) (prev : Option DiffObj) : ℝ :=
  if curr.flow = 0 then 0
  else
    let distance := curr.jumpDist / NORMALIZED_RADIUS
    let flowAimBase :=
      (1 + Real.tanh (distance - 2)) * 2.5 / curr.strainTime
        + distance / 5 / curr.strainTime
    let angleWeight := calcFlowAngleWeight curr.angle
    let patternWeight := calcFlowPatternWeight curr prev distance
    let locationWeight :=
      match prev with
      | some prev => calcLocationWeight curr.basePos prev.basePos
      | none => 1
    let flowAim := flowAimBase * angleWeight * patternWeight * (1 + (locationWeight - 1) / 2)
    flowAim * curr.flow

/-! ### C8: flow aim value -/

/-- Current object for the C8 counterexample: flow 1, normalised jump
distance 2, right angle, positioned so the midpoint sits 1000 px right of the
playfield centre. -/
noncomputable def c8Curr : DiffObj :=
  { idx := 2, baseKind := .circle, basePos := ⟨1256, 192⟩, baseStackedPos := ⟨1256, 192⟩
    startTime := 300, deltaTime := 100, strainTime := 100
    lastTwoStrainTime := 200, rawJumpDist := 104, jumpDist := 104
    baseFlow := 1, flow := 1, travelDist := 0, travelTime := 100
    angle := some (Real.pi / 2), angleLeniency := 0, preempt := 450, streamBpm := 150 }

/-- Previous object for the C8 counterexample: identical geometry. -/
noncomputable def c8Prev : DiffObj :=
  { idx := 1, baseKind := .circle, basePos := ⟨1256, 192⟩, baseStackedPos := ⟨1256, 192⟩
    startTime := 200, deltaTime := 100, strainTime := 100
    lastTwoStrainTime := 200, rawJumpDist := 104, jumpDist := 104
    baseFlow := 1, flow := 1, travelDist := 0, travelTime := 100
    angle := some (Real.pi / 2), angleLeniency := 0, preempt := 450, streamBpm := 150 }

lemma c8_flow_angle_bonus_eq_zero : flowAngleBonus (Real.pi / 2) (Real.pi / 2) = 0 := by
  have h1 : ¬((0 < Real.pi / 2 ∧ Real.pi / 2 < 0) ∨ (Real.pi / 2 < 0 ∧ 0 < Real.pi / 2)) := by
    rintro (⟨-, h⟩ | ⟨h, -⟩) <;> nlinarith [Real.pi_pos]
  simp only [flowAngleBonus]
  rw [if_neg h1, if_neg (lt_irrefl (|Real.pi / 2|))]
  norm_num

lemma c8_pattern_weight_eq_one :
    calcFlowPatternWeight c8Curr (some c8Prev) (c8Curr.jumpDist / NORMALIZED_RADIUS) = 1 := by
  have hr : flowDistanceRate 104 104 = 0 := by
    rw [flowDistanceRate, if_pos (by norm_num)]; norm_num
  have hdb : flowDistanceBonus 0 = 0 := by
    rw [flowDistanceBonus, if_pos le_rfl]; norm_num
  have hsjr : transitionToTrue 0 0 1 = 0 := by
    rw [transitionToTrue, if_pos le_rfl]
  have hsjw : calcStreamJumpWeight 104 0 2 = 1 := by
    rw [calcStreamJumpWeight, if_pos (by norm_num)]; norm_num
  simp only [calcFlowPatternWeight, c8Curr, c8Prev, NORMALIZED_RADIUS]
  norm_num [hr, hdb, hsjr, hsjw, c8_flow_angle_bonus_eq_zero]

lemma c8_location_weight_eq :
    calcLocationWeight c8Curr.basePos c8Prev.basePos = 79 / 36 := by
  simp only [calcLocationWeight, c8Curr, c8Prev, PLAYFIELD_BASE_SIZE]
  norm_num [Real.cos_pi_div_three, Real.sin_pi_div_three]
  rw [show Real.sqrt 3 / 2 * (Real.sqrt 3 / 2) = Real.sqrt 3 ^ 2 / 4 by ring]
  rw [Real.sq_sqrt (by norm_num : (3:ℝ) ≥ 0)]
  norm_num

/-- **C8, counterexample.** At a concrete object pair (flow 1, normalised
distance 2, right angle, midpoint 1000 px right of centre) the code's
`flow_aim_value` is `(29/1000)·(11/10)·(115/72)` while the claim's product
with the full location weight `1 + location_bonus` gives
`(29/1000)·(11/10)·(79/36)`; they differ. -/
theorem flowAim_location_counterexample :
    calcFlowAimValue c8Curr (some c8Prev) ≠
      ((1 + Real.tanh (c8Curr.jumpDist / NORMALIZED_RADIUS - 2)) * 2.5 / c8Curr.strainTime
          + c8Curr.jumpDist / NORMALIZED_RADIUS / 5 / c8Curr.strainTime)
        * (1 + (Real.cos (Real.pi / 2) + 1) / 10)
        * calcFlowPatternWeight c8Curr (some c8Prev) (c8Curr.jumpDist / NORMALIZED_RADIUS)
        * calcLocationWeight c8Curr.basePos c8Prev.basePos
        * c8Curr.flow := by
  have hflow : c8Curr.flow ≠ 0 := by
    rw [show c8Curr.flow = 1 from rfl]; norm_num
  rw [calcFlowAimValue, if_neg hflow]
  simp only []
  rw [c8_pattern_weight_eq_one, c8_location_weight_eq]
  simp only [calcFlowAngleWeight, show c8Curr.angle = some (Real.pi / 2) from rfl]
  rw [show c8Curr.jumpDist = 104 from rfl, show c8Curr.strainTime = 100 from rfl,
    show c8Curr.flow = 1 from rfl]
  norm_num [NORMALIZED_RADIUS, Real.cos_pi_div_two, Real.tanh_zero]

/-- **C8, amended.** For every difficulty object with nonzero flow, a
predecessor and a defined angle, `flow_aim_value` equals the base term
`(1 + tanh(d − 2))·2.5/strain_time + (d/5)/strain_time`
(`d = jump_dist/NORMALIZED_RADIUS`) multiplied by the angle weight
`1 + (cos(angle) + 1)/10`, the flow pattern weight, and the *halved* location
weight `1 + (location_weight − 1)/2` — i.e. `1 + location_bonus/2` — then
scaled by the current flow (`calc_flow_aim_value`,
`src/osu/difficulty/skills/aim.rs` lines 229–256). -/
theorem flowAimValue_eq (curr p : DiffObj) (a : ℝ)
    (hflow : curr.flow ≠ 0) (hangle : curr.angle = some a) :
    calcFlowAimValue curr (some p) =
      ((1 + Real.tanh (curr.jumpDist / NORMALIZED_RADIUS - 2)) * 2.5 / curr.strainTime
          + curr.jumpDist / NORMALIZED_RADIUS / 5 / curr.strainTime)
        * (1 + (Real.cos a + 1) / 10)
        * calcFlowPatternWeight curr (some p) (curr.jumpDist / NORMALIZED_RADIUS)
        * (1 + (calcLocationWeight curr.basePos p.basePos - 1) / 2)
        * curr.flow := by
  rw [calcFlowAimValue, if_neg hflow]
  simp only [calcFlowAngleWeight, hangle]

/-- Witness for the amended C8 theorem at the concrete pair
`c8Curr`/`c8Prev`. -/
theorem flowAimValue_eq_witness :
    c8Curr.flow ≠ 0 ∧ c8Curr.angle = some (Real.pi / 2) ∧
      calcFlowAimValue c8Curr (some c8Prev) =
        ((1 + Real.tanh (c8Curr.jumpDist / NORMALIZED_RADIUS - 2)) * 2.5 / c8Curr.strainTime
            + c8Curr.jumpDist / NORMALIZED_RADIUS / 5 / c8Curr.strainTime)
          * (1 + (Real.cos (Real.pi / 2) + 1) / 10)
          * calcFlowPatternWeight c8Curr (some c8Prev) (c8Curr.jumpDist / NORMALIZED_RADIUS)
          * (1 + (calcLocationWeight c8Curr.basePos c8Prev.basePos - 1) / 2)
          * c8Curr.flow :=
  ⟨by simp [c8Curr], rfl, flowAimValue_eq c8Curr c8Prev (Real.pi / 2) (by simp [c8Curr]) rfl⟩

/-! ## Rhythm skill (`src/osu/difficulty/skills/rhythm.rs`) -/

/-- The `RhythmComplexity` skill state: accumulated difficulty total, number
of processed circles (`i32`), the offbeat flag, and the recorded double
indices (`Vec<i32>`). -/
structure RhythmComplexity where
  difficultyTotal : ℝ
  circleCount : ℤ
  isPreviousOffbeat : Bool
  prevDoubles : List ℤ

/-- `RhythmComplexity::new`. -/
def RhythmComplexity.new : RhythmComplexity :=
  { difficultyTotal := 0, circleCount := 0, isPreviousOffbeat := false, prevDoubles := [] }

/-- `RhythmComplexity::as_difficulty_value`
(`src/osu/difficulty/skills/rhythm.rs` lines 39–43). -/
noncomputable def asDifficultyValue (s : RhythmComplexity) : ℝ :=
  let lengthRequirement := Real.tanh ((s.circleCount : ℝ) / 50)
  1 + s.difficultyTotal / (s.circleCount : ℝ) * lengthRequirement

/-- `Skill::<RhythmComplexity>::calc_slider_end_flow`. -/
noncomputable def calcSliderEndFlow (curr : DiffObj) : ℝ :=
  let streamBpm := 15000 / curr.travelTime
  let isFlowSpeed := transitionToTrue streamBpm 120 30
  let distanceOffset := (Real.tanh ((streamBpm - 140) / 20) + 2) * NORMALIZED_RADIUS
  let isFlowDistance := transitionToFalse curr.jumpDist distanceOffset NORMALIZED_RADIUS
  isFlowSpeed * isFlowDistance

/-- The new `is_previous_offbeat` flag assigned by the first `if` chain of
`calc_circle_to_circle_rhythm_bonus` (`src/osu/difficulty/skills/rhythm.rs`
lines 79–86). -/
noncomputable def offbeatAfter (s : RhythmComplexity) (curr prev : DiffObj) : Bool :=
  if isRatioEqual 0.667 curr.travelTime prev.travelTime ∧ 0.8 < curr.flow then true
  else if isRatioEqual 1 curr.travelTime prev.travelTime ∧ 0.8 < curr.flow then
    !s.isPreviousOffbeat
  else false

/-- `Skill::<RhythmComplexity>::calc_circle_to_circle_rhythm_bonus`
(`src/osu/difficulty/skills/rhythm.rs` lines 74–120), returning the bonus,
the new offbeat flag, and the new double history. In the repeated-double
branch the source computes the skip count `(prev_doubles.len() - 10).max(0)`
on `usize`; when fewer than 10 doubles are recorded the subtraction
underflows (a panic in debug builds), modelled as `none`. -/
noncomputable def circleToCircleBonus (s : RhythmComplexity) (curr prev : DiffObj) :
    Option (ℝ × Bool × List ℤ) :=
  let offbeat := offbeatAfter s curr prev
  if offbeat ∧ isRatioEqualGreater 1.5 curr.travelTime prev.travelTime then
    if s.prevDoubles.length < 10 then none
    else
      let skipped := s.prevDoubles.drop (s.prevDoubles.length - 10)
      let rhythmBonus := skipped.foldl
        (fun rhythmBonus prevDouble =>
          if 0 < prevDouble then
            rhythmBonus * (1 - 0.5 * ((curr.idx : ℝ) - (prevDouble : ℝ)) ^ (0.9 : ℝ))
          else (5 : ℝ))
        (5 : ℝ)
      some (rhythmBonus, offbeat, s.prevDoubles ++ [(curr.idx : ℤ)])
  else if isRatioEqual 0.667 curr.travelTime prev.travelTime then
    some (4 + 8 * curr.flow, offbeat,
      if 0.8 < curr.flow then s.prevDoubles ++ [(-1 : ℤ)] else s.prevDoubles)
  else if isRatioEqual 0.333 curr.travelTime prev.travelTime then
    some (0.4 + 0.8 * curr.flow, offbeat, s.prevDoubles)
  else if isRatioEqual 0.5 curr.travelTime prev.travelTime ∨
      isRatioEqual 0.25 curr.travelTime prev.travelTime then
    some (0.1 + 0.2 * curr.flow, offbeat, s.prevDoubles)
  else
    some (0, offbeat, s.prevDoubles)

/-- `Skill::<RhythmComplexity>::calc_slider_to_circle_rhythm_bonus`
(`src/osu/difficulty/skills/rhythm.rs` lines 122–142): bonus and new offbeat
flag. -/
noncomputable def sliderToCircleBonus (curr : DiffObj) : ℝ × Bool :=
  let sliderMs := curr.strainTime - curr.travelTime
  if isRatioEqual 0.5 curr.travelTime sliderMs ∨ isRatioEqual 0.25 curr.travelTime sliderMs then
    let endFlow := calcSliderEndFlow curr
    (0.3 * endFlow, decide (0.8 < endFlow))
  else
    (0, false)

/-- `Skill::<RhythmComplexity>::calc_rhythm_bonus`
(`src/osu/difficulty/skills/rhythm.rs` lines 59–72): the baseline
`0.05·flow` plus the predecessor-kind-specific bonus, together with the
updated state. -/
noncomputable def calcRhythmBonus (s : RhythmComplexity) (curr : DiffObj)
    (prev : Option DiffObj) : Option (ℝ × RhythmComplexity) :=
  let rhythmBonus := 0.05 * curr.flow
  match prev with
  | none => some (rhythmBonus, s)
  | some prev =>
      match prev.baseKind with
      | .circle =>
          match circleToCircleBonus s curr prev with
          | none => none
          | some (bonus, offbeat, doubles) =>
              some (rhythmBonus + bonus,
                { s with isPreviousOffbeat := offbeat, prevDoubles := doubles })
      | .slider _ _ _ =>
          let (bonus, offbeat) := sliderToCircleBonus curr
          some (rhythmBonus + bonus, { s with isPreviousOffbeat := offbeat })
      | .spinner _ =>
          some (rhythmBonus, { s with isPreviousOffbeat := false })

/-- `Skill::<RhythmComplexity>::process`
(`src/osu/difficulty/skills/rhythm.rs` lines 50–57): circles add their rhythm
bonus and bump the circle count; other objects clear the offbeat flag. -/
noncomputable def rhythmProcess (s : RhythmComplexity) (curr : DiffObj)
    (prev : Option DiffObj) : Option RhythmComplexity :=
  if curr.baseIsCircle then
    match calcRhythmBonus s curr prev with
    | none => none
    | some (bonus, s') =>
        some { s' with
          difficultyTotal := s'.difficultyTotal + bonus
          circleCount := s'.circleCount + 1 }
  else
    some { s with isPreviousOffbeat := false }

/-- Processing a difficulty-object sequence in order, threading the previous
difficulty object (`curr.previous(0, diff_objects)`). -/
noncomputable def rhythmProcessAll (s : RhythmComplexity) (prev : Option DiffObj) :
    List DiffObj → Option RhythmComplexity
  | [] => some s
  | curr :: rest =>
      match rhythmProcess s curr prev with
      | none => none
      | some s' => rhythmProcessAll s' (some curr) rest

/-- The number of circles in a difficulty-object sequence. -/
def countCircles (objs : List DiffObj) : ℕ :=
  (objs.filter (fun o => o.baseIsCircle)).length

/-! ### C9: rhythm difficulty value -/

lemma calcRhythmBonus_circleCount (s : RhythmComplexity) (curr : DiffObj)
    (prev : Option DiffObj) (b : ℝ) (s' : RhythmComplexity)
    (h : calcRhythmBonus s curr prev = some (b, s')) :
    s'.circleCount = s.circleCount := by
  unfold calcRhythmBonus at h
  cases prev with
  | none =>
      simp only [Option.some.injEq, Prod.mk.injEq] at h
      rw [← h.2]
  | some prev =>
      cases hk : prev.baseKind with
      | circle =>
          simp only [hk] at h
          cases hcc : circleToCircleBonus s curr prev with
          | none => rw [hcc] at h; exact absurd h (by simp)
          | some val =>
              obtain ⟨bonus, offbeat, doubles⟩ := val
              rw [hcc] at h
              simp only [Option.some.injEq, Prod.mk.injEq] at h
              rw [← h.2]
      | slider lazyEndPos lazyTravelDist endTime =>
          simp only [hk, Option.some.injEq, Prod.mk.injEq] at h
          rw [← h.2]
      | spinner endTime =>
          simp only [hk, Option.some.injEq, Prod.mk.injEq] at h
          rw [← h.2]

lemma rhythmProcess_circleCount (s : RhythmComplexity) (curr : DiffObj)
    (prev : Option DiffObj) (s' : RhythmComplexity)
    (h : rhythmProcess s curr prev = some s') :
    s'.circleCount = s.circleCount + (if curr.baseIsCircle then 1 else 0) := by
  unfold rhythmProcess at h
  by_cases hc : curr.baseIsCircle
  · rw [if_pos hc] at h
    cases hcb : calcRhythmBonus s curr prev with
    | none => rw [hcb] at h; exact absurd h (by simp)
    | some val =>
        obtain ⟨bonus, s₁⟩ := val
        rw [hcb] at h
        simp only [Option.some.injEq] at h
        rw [← h]
        simp only [if_pos hc]
        rw [calcRhythmBonus_circleCount s curr prev bonus s₁ hcb]
  · rw [if_neg hc] at h
    simp only [Option.some.injEq] at h
    rw [← h]
    simp [if_neg hc]

lemma rhythmProcessAll_circleCount (objs : List DiffObj) :
    ∀ (s : RhythmComplexity) (prev : Option DiffObj) (s' : RhythmComplexity),
      rhythmProcessAll s prev objs = some s' →
        s'.circleCount = s.circleCount + countCircles objs := by
  induction objs with
  | nil =>
      intro s prev s' h
      simp only [rhythmProcessAll, Option.some.injEq] at h
      rw [← h]
      simp [countCircles]
  | cons curr rest ih =>
      intro s prev s' h
      simp only [rhythmProcessAll] at h
      cases hp : rhythmProcess s curr prev with
      | none => rw [hp] at h; exact absurd h (by simp)
      | some s₁ =>
          rw [hp] at h
          have hcount := rhythmProcess_circleCount s curr prev s₁ hp
          have hrest := ih s₁ (some curr) s' h
          rw [hrest, hcount]
          by_cases hc : curr.baseIsCircle
          · have hcc : countCircles (curr :: rest) = countCircles rest + 1 := by
              simp [countCircles, hc]
            rw [hcc, if_pos hc]
            push_cast
            ring
          · have hcc : countCircles (curr :: rest) = countCircles rest := by
              simp [countCircles, hc]
            rw [hcc, if_neg hc]
            ring

/-- **C9.** For every final rhythm skill state reached by processing a
difficulty-object sequence from the fresh state, `difficulty_value()` returns
`1 + difficulty_total/circle_count · tanh(circle_count/50)` where
`circle_count` is the number of circles processed — including
`circle_count = 0`, in which case the same expression applies with no special
case (`RhythmComplexity::as_difficulty_value`,
`src/osu/difficulty/skills/rhythm.rs` lines 33–43). -/
theorem rhythm_difficulty_value (objs : List DiffObj) (s' : RhythmComplexity)
    (h : rhythmProcessAll RhythmComplexity.new none objs = some s') :
    asDifficultyValue s' =
      1 + s'.difficultyTotal / (countCircles objs : ℝ) *
        Real.tanh ((countCircles objs : ℝ) / 50) := by
  have hcount := rhythmProcessAll_circleCount objs RhythmComplexity.new none s' h
  unfold asDifficultyValue
  rw [hcount]
  simp [RhythmComplexity.new]

/-- A single circle difficulty object with zero flow used to witness the C9
and C10 theorems on a concrete run. -/
noncomputable def c9Obj : DiffObj :=
  { idx := 0, baseKind := .circle, basePos := ⟨0, 0⟩, baseStackedPos := ⟨0, 0⟩
    startTime := 100, deltaTime := 100, strainTime := 100
    lastTwoStrainTime := 100, rawJumpDist := 10, jumpDist := 10
    baseFlow := 0, flow := 0, travelDist := 0, travelTime := 100
    angle := none, angleLeniency := 0, preempt := 450, streamBpm := 150 }

/-- Witness for C9: a one-circle run yields a concrete final state whose
difficulty value matches the formula with `circle_count = 1`. -/
theorem rhythm_difficulty_value_witness :
    rhythmProcessAll RhythmComplexity.new none [c9Obj] =
        some ⟨0 + 0.05 * c9Obj.flow, 0 + 1, false, []⟩ ∧
      asDifficultyValue ⟨0 + 0.05 * c9Obj.flow, 0 + 1, false, []⟩ =
        1 + (0 + 0.05 * c9Obj.flow) / (countCircles [c9Obj] : ℝ) *
          Real.tanh ((countCircles [c9Obj] : ℝ) / 50) := by
  have hrun : rhythmProcessAll RhythmComplexity.new none [c9Obj] =
      some ⟨0 + 0.05 * c9Obj.flow, 0 + 1, false, []⟩ := by
    simp [rhythmProcessAll, rhythmProcess, calcRhythmBonus, RhythmComplexity.new, c9Obj,
      DiffObj.baseIsCircle]
  exact ⟨hrun, rhythm_difficulty_value [c9Obj] _ hrun⟩

/-! ### C10: rhythm processing never panics -/

lemma isRatioEqual_upper {r a b : ℝ} (h : isRatioEqual r a b) :
    a ≤ r * b + 0.15 * r * b := by
  unfold isRatioEqual at h
  have := (abs_le.mp h).2
  linarith

lemma no_double_branch (s : RhythmComplexity) (curr prev : DiffObj)
    (hb : 0 < prev.travelTime) :
    ¬(offbeatAfter s curr prev = true ∧
        isRatioEqualGreater 1.5 curr.travelTime prev.travelTime) := by
  rintro ⟨hoff, hg⟩
  unfold isRatioEqualGreater at hg
  unfold offbeatAfter at hoff
  split_ifs at hoff with h1 h2
  · have := isRatioEqual_upper h1.1
    nlinarith
  · have := isRatioEqual_upper h2.1
    nlinarith

lemma circleToCircleBonus_isSome (s : RhythmComplexity) (curr prev : DiffObj)
    (hb : 0 < prev.travelTime) :
    (circleToCircleBonus s curr prev).isSome := by
  unfold circleToCircleBonus
  rw [if_neg (no_double_branch s curr prev hb)]
  split_ifs <;> simp

lemma rhythmProcess_isSome (s : RhythmComplexity) (curr : DiffObj)
    (prev : Option DiffObj)
    (hprev : ∀ p, prev = some p → (0 : ℝ) < p.travelTime) :
    (rhythmProcess s curr prev).isSome := by
  unfold rhythmProcess calcRhythmBonus
  by_cases hc : curr.baseIsCircle
  · rw [if_pos hc]
    cases prev with
    | none => simp
    | some p =>
        cases hk : p.baseKind with
        | circle =>
            have hcc := circleToCircleBonus_isSome s curr p (hprev p rfl)
            simp only [hk]
            cases hval : circleToCircleBonus s curr p with
            | none => rw [hval] at hcc; exact absurd hcc (by simp)
            | some val => obtain ⟨b, ob, d⟩ := val; simp
        | slider lazyEndPos lazyTravelDist endTime => simp [hk]
        | spinner endTime => simp [hk]
  · rw [if_neg hc]; simp

lemma rhythmProcessAll_isSome (objs : List DiffObj) :
    ∀ (s : RhythmComplexity) (prev : Option DiffObj),
      (∀ o ∈ objs, (0 : ℝ) < o.travelTime) →
      (∀ p, prev = some p → (0 : ℝ) < p.travelTime) →
      (rhythmProcessAll s prev objs).isSome := by
  induction objs with
  | nil => intro s prev _ _; simp [rhythmProcessAll]
  | cons curr rest ih =>
      intro s prev hobjs hprev
      simp only [rhythmProcessAll]
      have hstep := rhythmProcess_isSome s curr prev hprev
      cases hp : rhythmProcess s curr prev with
      | none => rw [hp] at hstep; exact absurd hstep (by simp)
      | some s₁ =>
          exact ih s₁ (some curr)
            (fun o ho => hobjs o (List.mem_cons_of_mem curr ho))
            (fun p hp' => by
              obtain rfl : curr = p := by injection hp'
              exact hobjs curr (List.mem_cons_self curr rest))

/-- **C10.** Processing any sequence of difficulty objects with positive
travel times (every constructed difficulty object has `travel_time ≥ 50`)
through the rhythm skill is total: the repeated-double branch — whose skip
count `(prev_doubles.len() − 10).max(0)` would underflow on `usize` when
fewer than 10 doubles are recorded — is never reached, because the offbeat
flag can only be set by travel-time ratios ≤ 1.15·prev while the branch
requires ≥ 1.275·prev (`calc_circle_to_circle_rhythm_bonus`,
`src/osu/difficulty/skills/rhythm.rs` lines 88–105). -/
theorem rhythm_process_never_panics (objs : List DiffObj)
    (h : ∀ o ∈ objs, (0 : ℝ) < o.travelTime) :
    (rhythmProcessAll RhythmComplexity.new none objs).isSome :=
  rhythmProcessAll_isSome objs RhythmComplexity.new none h (fun p hp => by cases hp)

/-- Witness for C10: the one-circle run with travel time 100 processes to
completion. -/
theorem rhythm_process_never_panics_witness :
    (∀ o ∈ [c9Obj], (0 : ℝ) < o.travelTime) ∧
      (rhythmProcessAll RhythmComplexity.new none [c9Obj]).isSome := by
  have h : ∀ o ∈ [c9Obj], (0 : ℝ) < o.travelTime := by
    intro o ho
    simp only [List.mem_singleton] at ho
    rw [ho]
    show (0 : ℝ) < (100 : ℝ)
    norm_num
  exact ⟨h, rhythm_process_never_panics [c9Obj] h⟩

/-! ## Performance calculation (`src/osu/performance/mod.rs`) -/

/-- `OsuDifficultyAttributes` (`src/osu/attributes.rs`): ratings as reals,
object counts and max combo as naturals. -/
structure OsuDifficultyAttributes where
  aim : ℝ
  jump : ℝ
  flow : ℝ
  precision : ℝ
  speed : ℝ
  stamina : ℝ
  accuracy : ℝ
  ar : ℝ
  od : ℝ
  hp : ℝ
  nCircles : ℕ
  nSliders : ℕ
  nSpinners : ℕ
  stars : ℝ
  maxCombo : ℕ

/-- `OsuDifficultyAttributes::n_objects`. -/
def OsuDifficultyAttributes.nObjects (attrs : OsuDifficultyAttributes) : ℕ :=
  attrs.nCircles + attrs.nSliders + attrs.nSpinners

/-- Modelled from the spec: `OsuScoreState` (its file
`src/osu/score_state.rs` is not among the provided sources); spec §3:
`{ max_combo, n300, n100, n50, misses }`. -/
structure OsuScoreState where
  maxCombo : ℕ
  n300 : ℕ
  n100 : ℕ
  n50 : ℕ
  misses : ℕ
deriving DecidableEq

/-- `OsuScoreState::total_hits = n300 + n100 + n50 + misses`. -/
def OsuScoreState.totalHits (s : OsuScoreState) : ℕ :=
  s.n300 + s.n100 + s.n50 + s.misses

/-- The two mod queries the osu! performance inner calculation makes
(`Mods::hd`, `Mods::fl` on the `u32` bitset). -/
structure Mods where
  hd : Bool
  fl : Bool

/-- `calculate_effective_misses` (`src/osu/performance/mod.rs`
lines 625–642): combo-based miss guess, clamped above by
`n100 + n50 + misses` and below by the reported misses. -/
noncomputable def calculateEffectiveMisses (attrs : OsuDifficultyAttributes)
    (state : OsuScoreState) : ℝ :=
  let comboBasedMissCount : ℝ :=
    if 0 < attrs.nSliders then
      let fullComboThreshold := (attrs.maxCombo : ℝ) - 0.1 * (attrs.nSliders : ℝ)
      if (state.maxCombo : ℝ) < fullComboThreshold then
        fullComboThreshold / max (state.maxCombo : ℝ) 1
      else 0
    else 0
  let comboBasedMissCount :=
    min comboBasedMissCount ((state.n100 + state.n50 + state.misses : ℕ) : ℝ)
  max comboBasedMissCount (state.misses : ℝ)

/-- `OsuPerformanceInner::compute_skill_value`. -/
noncomputable def computeSkillValue (skillDiff : ℝ) : ℝ :=
  skillDiff ^ (3 : ℝ) * 3.9

/-- `OsuPerformanceInner::compute_accuracy_value`; the possibly-NaN
normalised hit error is modelled as an `Option` (`none` = NaN). -/
noncomputable def computeAccuracyValue (normalisedHitError : Option ℝ) : ℝ :=
  match normalisedHitError with
  | none => 0
  | some err => 560 * (0.85 : ℝ) ^ err

/-- `OsuPerformanceInner::compute_miss_weight`
(`src/osu/performance/mod.rs` lines 591–593): `0.97` raised to the *reported*
miss count `state.misses`. -/
noncomputable def computeMissWeight (state : OsuScoreState) : ℝ :=
  (0.97 : ℝ) ^ ((state.misses : ℕ) : ℝ)

/-- `OsuPerformanceInner::compute_aim_weight`
(`src/osu/performance/mod.rs` lines 595–601). -/
noncomputable def computeAimWeight (attrs : OsuDifficultyAttributes) (mods : Mods)
    (state : OsuScoreState) (missWeight : ℝ) (normalisedHitError : Option ℝ)
    (totalHits : ℝ) : ℝ :=
  let accuracyWeight :=
    match normalisedHitError with
    | none => 0
    | some err => (0.995 : ℝ) ^ err * 1.04
  let comboWeight :=
    (state.maxCombo : ℝ) ^ (0.8 : ℝ) / (attrs.maxCombo : ℝ) ^ (0.8 : ℝ)
  let flLengthWeight := if mods.fl then 1 + Real.arctan (totalHits / 2000) else 1
  accuracyWeight * comboWeight * missWeight * flLengthWeight

/-- `OsuPerformanceInner::compute_speed_weight`
(`src/osu/performance/mod.rs` lines 603–608). -/
noncomputable def computeSpeedWeight (attrs : OsuDifficultyAttributes)
    (state : OsuScoreState) (missWeight : ℝ) (normalisedHitError : Option ℝ) : ℝ :=
  let accuracyWeight :=
    match normalisedHitError with
    | none => 0
    | some err => (0.985 : ℝ) ^ err * 1.12
  let comboWeight :=
    (state.maxCombo : ℝ) ^ (0.4 : ℝ) / (attrs.maxCombo : ℝ) ^ (0.4 : ℝ)
  accuracyWeight * comboWeight * missWeight

/-- `OsuPerformanceInner::compute_accuracy_weight`. -/
noncomputable def computeAccuracyWeight (attrs : OsuDifficultyAttributes)
    (mods : Mods) : ℝ :=
  let lengthWeight := Real.tanh (((attrs.nCircles : ℝ) + 400) / 1050) * 1.2
  let modWeight := (if mods.hd then (1.02 : ℝ) else 1) * (if mods.fl then (1.04 : ℝ) else 1)
  lengthWeight * modWeight

/-- The eight pp values of `OsuPerformanceAttributes`. -/
structure OsuPerformanceValues where
  pp : ℝ
  ppAim : ℝ
  ppJumpAim : ℝ
  ppFlowAim : ℝ
  ppPrecision : ℝ
  ppSpeed : ℝ
  ppStamina : ℝ
  ppAccuracy : ℝ

/-- `OsuPerformanceInner` (`src/osu/performance/mod.rs` lines 526–532). The
`effectiveMissCount` field is populated by `OsuPerformance::calculate` and —
exactly as in the source — never read by the computation. The normalised hit
error produced by the external `statrs` Beta/Normal inverse CDFs is an opaque
input (`none` = NaN, arising when `c ≤ 0`). -/
structure OsuPerformanceInner where
  attrs : OsuDifficultyAttributes
  mods : Mods
  acc : ℝ
  state : OsuScoreState
  effectiveMissCount : ℝ

/-- `OsuPerformanceInner::calculate` (`src/osu/performance/mod.rs`
lines 535–570), with the normalised hit error as an opaque parameter. -/
noncomputable def innerCalculate (inner : OsuPerformanceInner)
    (normalisedHitError : Option ℝ) : OsuPerformanceValues :=
  let totalHits := (inner.state.totalHits : ℝ)
  let missWeight := computeMissWeight inner.state
  let aimWeight :=
    computeAimWeight inner.attrs inner.mods inner.state missWeight normalisedHitError totalHits
  let speedWeight := computeSpeedWeight inner.attrs inner.state missWeight normalisedHitError
  let accWeight := computeAccuracyWeight inner.attrs inner.mods
  let aimValue := computeSkillValue inner.attrs.aim * aimWeight
  let jumpAimValue := computeSkillValue inner.attrs.jump * aimWeight
  let flowAimValue := computeSkillValue inner.attrs.flow * aimWeight
  let precisionAimValue := computeSkillValue inner.attrs.precision * aimWeight
  let speedValue := computeSkillValue inner.attrs.speed * speedWeight
  let staminaValue := computeSkillValue inner.attrs.stamina * speedWeight
  let accValue := computeAccuracyValue normalisedHitError * inner.attrs.accuracy * accWeight
  let pp :=
    (aimValue ^ (1.1 : ℝ) + (max speedValue staminaValue) ^ (1.1 : ℝ)
        + accValue ^ (1.1 : ℝ)) ^ ((1 : ℝ) / 1.1) * 1.12
  { pp := pp
    ppAim := aimValue
    ppJumpAim := jumpAimValue
    ppFlowAim := flowAimValue
    ppPrecision := precisionAimValue
    ppSpeed := speedValue
    ppStamina := staminaValue
    ppAccuracy := accValue }

/-- The pp stage of `OsuPerformance::calculate`
(`src/osu/performance/mod.rs` lines 482–501) once the score state is known:
it computes `effective_miss_count` via `calculate_effective_misses`, stores it
in the inner struct, and runs the inner calculation. -/
noncomputable def osuCalculate (attrs : OsuDifficultyAttributes) (mods : Mods)
    (state : OsuScoreState) (acc : ℝ) (normalisedHitError : Option ℝ) :
    OsuPerformanceValues :=
  let effectiveMissCount := calculateEffectiveMisses attrs state
  innerCalculate
    { attrs := attrs, mods := mods, acc := acc, state := state
      effectiveMissCount := effectiveMissCount }
    normalisedHitError

/-! ### C1: the miss weight -/

/-- Concrete attributes for the C1 counterexample: one slider, max combo
100. -/
noncomputable def c1Attrs : OsuDifficultyAttributes :=
  { aim := 1, jump := 1, flow := 1, precision := 1, speed := 1, stamina := 1
    accuracy := 1, ar := 9, od := 8, hp := 5
    nCircles := 99, nSliders := 1, nSpinners := 0, stars := 5, maxCombo := 100 }

/-- Concrete state for the C1 counterexample: no misses but combo 1, so the
combo-based guess is `99.9`. -/
def c1State : OsuScoreState :=
  { maxCombo := 1, n300 := 0, n100 := 100, n50 := 0, misses := 0 }

/-- **C1, counterexample.** With one slider, `max_combo = 100`, achieved
combo 1, `n100 = 100` and zero reported misses, the effective miss count is
`99.9` yet the miss weight is `0.97^0 = 1 ≠ 0.97^99.9`: the miss weight does
not equal `0.97^eff_miss`. -/
theorem missWeight_counterexample :
    calculateEffectiveMisses c1Attrs c1State = 99.9 ∧
      computeMissWeight c1State ≠
        (0.97 : ℝ) ^ calculateEffectiveMisses c1Attrs c1State := by
  have heff : calculateEffectiveMisses c1Attrs c1State = 99.9 := by
    unfold calculateEffectiveMisses
    simp only [c1Attrs, c1State]
    norm_num
  refine ⟨heff, ?_⟩
  rw [heff]
  unfold computeMissWeight
  simp only [c1State]
  rw [show (((0 : ℕ) : ℕ) : ℝ) = (0 : ℝ) by norm_num, Real.rpow_zero]
  intro h
  have : (0.97 : ℝ) ^ (99.9 : ℝ) < 1 :=
    Real.rpow_lt_one (by norm_num) (by norm_num) (by norm_num)
  rw [← h] at this
  exact lt_irrefl 1 this

/-- **C1, amended.** In the pp computation the miss weight used for the aim
and speed weights equals `0.97` raised to the *reported* miss count
`state.misses`; the effective miss count — the combo-based guess (taken when
`n_sliders > 0` and the achieved combo is below
`max_combo − 0.1·n_sliders`, as that threshold divided by
`max(achieved combo, 1)`), clamped above by `n100 + n50 + misses` and below
by the reported misses — is computed by `calculate_effective_misses` exactly
as described but never enters the weights. -/
theorem miss_weight_uses_reported_misses (attrs : OsuDifficultyAttributes)
    (mods : Mods) (state : OsuScoreState) (acc : ℝ) (err : Option ℝ) :
    (osuCalculate attrs mods state acc err).ppAim =
        computeSkillValue attrs.aim *
          computeAimWeight attrs mods state ((0.97 : ℝ) ^ ((state.misses : ℕ) : ℝ)) err
            (state.totalHits : ℝ) ∧
      (osuCalculate attrs mods state acc err).ppSpeed =
        computeSkillValue attrs.speed *
          computeSpeedWeight attrs state ((0.97 : ℝ) ^ ((state.misses : ℕ) : ℝ)) err ∧
      calculateEffectiveMisses attrs state =
        max
          (min
            (if 0 < attrs.nSliders ∧
                (state.maxCombo : ℝ) < (attrs.maxCombo : ℝ) - 0.1 * (attrs.nSliders : ℝ) then
              ((attrs.maxCombo : ℝ) - 0.1 * (attrs.nSliders : ℝ)) / max (state.maxCombo : ℝ) 1
            else 0)
            ((state.n100 + state.n50 + state.misses : ℕ) : ℝ))
          (state.misses : ℝ) := by
  refine ⟨rfl, rfl, ?_⟩
  unfold calculateEffectiveMisses
  by_cases h1 : 0 < attrs.nSliders
  · by_cases h2 : (state.maxCombo : ℝ) < (attrs.maxCombo : ℝ) - 0.1 * (attrs.nSliders : ℝ)
    · rw [if_pos h1, if_pos h2, if_pos ⟨h1, h2⟩]
    · rw [if_pos h1, if_neg h2, if_neg (fun h => h2 h.2)]
  · rw [if_neg h1, if_neg (fun h => h1 h.1)]

/-! ## Hitresult synthesis (`OsuPerformance::generate_state`,
`src/osu/performance/mod.rs` lines 299–479)

`generate_state` works on `u32` counters and `f64` accuracies; every `f64`
value reachable here is rational and all operations (`+`, `−`, `*`, `/`,
`abs`, `floor`, `ceil`, comparisons) are exact on rationals of this size, so
the synthesis is embedded computably over `ℚ`. `n_objects` stands for
`min(passed_objects, attrs.n_objects())` and `max_combo` for
`attrs.max_combo`, both resolved by the caller. -/

/-- `HitResultPriority` (default `BestCase`). -/
inductive HitResultPriority where
  | bestCase : HitResultPriority
  | worstCase : HitResultPriority

/-- The free function `accuracy(n300, n100, n50, misses)`
(`src/osu/performance/mod.rs` lines 644–653). -/
def accuracy (n300 n100 n50 misses : ℕ) : ℚ :=
  if n300 + n100 + n50 + misses = 0 then 0
  else ((6 * n300 + 2 * n100 + n50 : ℕ) : ℚ) / ((6 * (n300 + n100 + n50 + misses) : ℕ) : ℚ)

/-- `u32::MAX`. -/
def u32MAX : ℕ := 4294967295

/-- `raw.floor() as u32` on a finite `f64`: Rust's saturating float-to-int
cast (negative values to `0`, values above `u32::MAX` to `u32::MAX`). -/
def floorU32 (q : ℚ) : ℕ := min ⌊q⌋.toNat u32MAX

/-- `raw.ceil() as u32`, saturating as in `floorU32`. -/
def ceilU32 (q : ℚ) : ℕ := min ⌈q⌉.toNat u32MAX

/-- `f64::MAX` (`(2^53 − 1)·2^971`), the initial `best_dist`. Every distance
compared against it is at most `2`. -/
def f64MAX : ℚ := (2 ^ 53 - 1) * 2 ^ 971

/-- The search loops of `generate_state`: iterate over the candidate triples
in order, keeping the first candidate that strictly improves `best_dist`
(initially `f64MAX`), exactly like the source's mutable
`best_dist`/`n300`/`n100`/`n50`. -/
def bestFold (cands : List (ℕ × ℕ × ℕ)) (dist : ℕ × ℕ × ℕ → ℚ)
    (init : ℚ × ℕ × ℕ × ℕ) : ℚ × ℕ × ℕ × ℕ :=
  cands.foldl (fun st c => if dist c < st.1 then (dist c, c.1, c.2.1, c.2.2) else st) init

/-- The inclusive range `lo..=hi` as a list (empty when `hi < lo`). -/
def searchRange (lo hi : ℕ) : List ℕ :=
  (List.range (hi + 1 - lo)).map (lo + ·)

/-- The `(Some(_), None, None)` search of `generate_state`
(`src/osu/performance/mod.rs` lines 338–358): `n300` fixed, search over
`n100`. -/
def searchN300Fixed (acc targetTotal : ℚ) (nRemaining n300₀ n100₀ n50₀ misses : ℕ) :
    ℕ × ℕ × ℕ :=
  let n300c := min n300₀ nRemaining
  let nRemaining2 := nRemaining - n300c
  let rawN100 := targetTotal - ((nRemaining2 + 6 * n300c : ℕ) : ℚ)
  let minN100 := min nRemaining2 (floorU32 rawN100)
  let maxN100 := min nRemaining2 (ceilU32 rawN100)
  let cands := (searchRange minN100 maxN100).map
    (fun new100 => (n300c, new100, nRemaining2 - new100))
  let r := bestFold cands
    (fun c => |acc - accuracy c.1 c.2.1 c.2.2 misses|)
    (f64MAX, n300c, n100₀, n50₀)
  (r.2.1, r.2.2.1, r.2.2.2)

/-- The `(None, Some(_), None)` search of `generate_state`
(`src/osu/performance/mod.rs` lines 359–379): `n100` fixed, search over
`n300`. -/
def searchN100Fixed (acc targetTotal : ℚ) (nRemaining n300₀ n100₀ n50₀ misses : ℕ) :
    ℕ × ℕ × ℕ :=
  let n100c := min n100₀ nRemaining
  let nRemaining2 := nRemaining - n100c
  let rawN300 := (targetTotal - ((nRemaining2 + 2 * n100c : ℕ) : ℚ)) / 5
  let minN300 := min nRemaining2 (floorU32 rawN300)
  let maxN300 := min nRemaining2 (ceilU32 rawN300)
  let cands := (searchRange minN300 maxN300).map
    (fun new300 => (new300, n100c, nRemaining2 - new300))
  let r := bestFold cands
    (fun c => |acc - accuracy c.1 c.2.1 c.2.2 misses|)
    (f64MAX, n300₀, n100c, n50₀)
  (r.2.1, r.2.2.1, r.2.2.2)

/-- The `(None, None, Some(_))` search of `generate_state`
(`src/osu/performance/mod.rs` lines 380–403): `n50` fixed, search over
`n300`. -/
def searchN50Fixed (acc targetTotal : ℚ) (nObjects nRemaining n300₀ n100₀ n50₀ misses : ℕ) :
    ℕ × ℕ × ℕ :=
  let n50c := min n50₀ nRemaining
  let nRemaining2 := nRemaining - n50c
  let rawN300 :=
    (targetTotal + ((2 * misses + n50c : ℕ) : ℚ) - ((2 * nObjects : ℕ) : ℚ)) / 4
  let minN300 := min nRemaining2 (floorU32 rawN300)
  let maxN300 := min nRemaining2 (ceilU32 rawN300)
  let cands := (searchRange minN300 maxN300).map
    (fun new300 => (new300, nRemaining2 - new300, n50c))
  let r := bestFold cands
    (fun c => |acc - accuracy c.1 c.2.1 c.2.2 misses|)
    (f64MAX, n300₀, n100₀, n50c)
  (r.2.1, r.2.2.1, r.2.2.2)

/-- The candidate triples visited by the `(None, None, None)` double search
of `generate_state` (`src/osu/performance/mod.rs` lines 404–428), in
iteration order. -/
def searchFreeCands (targetTotal : ℚ) (nRemaining : ℕ) : List (ℕ × ℕ × ℕ) :=
  let rawN300 := (targetTotal - (nRemaining : ℚ)) / 5
  let minN300 := min nRemaining (floorU32 rawN300)
  let maxN300 := min nRemaining (ceilU32 rawN300)
  (searchRange minN300 maxN300).flatMap
    (fun new300 =>
      let rawN100 := targetTotal - ((nRemaining + 5 * new300 : ℕ) : ℚ)
      let minN100 := min (floorU32 rawN100) (nRemaining - new300)
      let maxN100 := min (ceilU32 rawN100) (nRemaining - new300)
      (searchRange minN100 maxN100).map
        (fun new100 => (new300, new100, nRemaining - new300 - new100)))

/-- The priority tie-break shift of the `(None, None, None)` branch
(`src/osu/performance/mod.rs` lines 429–444): BestCase sacrifices
`n = min(n300, n50/4)` 300s into `5n` 100s removing `4n` 50s; WorstCase gains
`n = n100/5` 300s and `4n` 50s from `5n` 100s. -/
def priorityShift (priority : HitResultPriority) (t : ℕ × ℕ × ℕ) : ℕ × ℕ × ℕ :=
  match priority with
  | .bestCase =>
      let n := min t.1 (t.2.2 / 4)
      (t.1 - n, t.2.1 + 5 * n, t.2.2 - 4 * n)
  | .worstCase =>
      let n := t.2.1 / 5
      (t.1 + n, t.2.1 - 5 * n, t.2.2 + 4 * n)

/-- The `(None, None, None)` double search of `generate_state`
(`src/osu/performance/mod.rs` lines 404–445), including the priority shift
on the best triple. -/
def searchFree (acc targetTotal : ℚ) (nRemaining n300₀ n100₀ n50₀ misses : ℕ)
    (priority : HitResultPriority) : ℕ × ℕ × ℕ :=
  let r := bestFold (searchFreeCands targetTotal nRemaining)
    (fun c => |acc - accuracy c.1 c.2.1 c.2.2 misses|)
    (f64MAX, n300₀, n100₀, n50₀)
  priorityShift priority (r.2.1, r.2.2.1, r.2.2.2)

/-- Embedding of `OsuPerformance::generate_state`
(`src/osu/performance/mod.rs` lines 299–479). Inputs mirror the builder
state: the optional caller-specified `n300`/`n100`/`n50`/`misses`/`combo`,
the optional accuracy (already clamped to `[0, 1]` by the `accuracy` setter),
and the hitresult priority. -/
def generateState (nObjects maxCombo : ℕ)
    (n300I n100I n50I missesI comboI : Option ℕ)
    (accI : Option ℚ) (priority : HitResultPriority) : OsuScoreState :=
  let misses := match missesI with | some n => min n nObjects | none => 0
  let nRemaining := nObjects - misses
  let n300₀ := match n300I with | some n => min n nRemaining | none => 0
  let n100₀ := match n100I with | some n => min n nRemaining | none => 0
  let n50₀ := match n50I with | some n => min n nRemaining | none => 0
  let result : ℕ × ℕ × ℕ :=
    match accI with
    | some acc =>
        let targetTotal := acc * ((6 * nObjects : ℕ) : ℚ)
        match n300I, n100I, n50I with
        | some _, some _, some _ =>
            let remaining := nObjects - (n300₀ + n100₀ + n50₀ + misses)
            match priority with
            | .bestCase => (n300₀ + remaining, n100₀, n50₀)
            | .worstCase => (n300₀, n100₀, n50₀ + remaining)
        | some _, some _, none => (n300₀, n100₀, nObjects - (n300₀ + n100₀ + misses))
        | some _, none, some _ => (n300₀, nObjects - (n300₀ + n50₀ + misses), n50₀)
        | none, some _, some _ => (nObjects - (n100₀ + n50₀ + misses), n100₀, n50₀)
        | some _, none, none =>
            searchN300Fixed acc targetTotal nRemaining n300₀ n100₀ n50₀ misses
        | none, some _, none =>
            searchN100Fixed acc targetTotal nRemaining n300₀ n100₀ n50₀ misses
        | none, none, some _ =>
            searchN50Fixed acc targetTotal nObjects nRemaining n300₀ n100₀ n50₀ misses
        | none, none, none =>
            searchFree acc targetTotal nRemaining n300₀ n100₀ n50₀ misses priority
    | none =>
        let remaining := nObjects - (n300₀ + n100₀ + n50₀ + misses)
        match priority with
        | .bestCase =>
            match n300I, n100I, n50I with
            | none, _, _ => (remaining, n100₀, n50₀)
            | _, none, _ => (n300₀, remaining, n50₀)
            | _, _, none => (n300₀, n100₀, remaining)
            | _, _, _ => (n300₀ + remaining, n100₀, n50₀)
        | .worstCase =>
            match n50I, n100I, n300I with
            | none, _, _ => (n300₀, n100₀, remaining)
            | _, none, _ => (n300₀, remaining, n50₀)
            | _, _, none => (remaining, n100₀, n50₀)
            | _, _, _ => (n300₀, n100₀, n50₀ + remaining)
  let maxPossibleCombo := maxCombo - misses
  let maxComboOut :=
    match comboI with
    | some combo => min combo maxPossibleCombo
    | none => maxPossibleCombo
  { maxCombo := maxComboOut
    n300 := result.1
    n100 := result.2.1
    n50 := result.2.2
    misses := misses }

/-! ### C5/C6 support lemmas -/

lemma accuracy_nonneg (a b c m : ℕ) : 0 ≤ accuracy a b c m := by
  unfold accuracy
  split_ifs with h
  · norm_num
  · positivity

lemma accuracy_le_one (a b c m : ℕ) : accuracy a b c m ≤ 1 := by
  unfold accuracy
  split_ifs with h
  · norm_num
  · have hpos : (0 : ℚ) < ((6 * (a + b + c + m) : ℕ) : ℚ) := by
      have : 0 < a + b + c + m := Nat.pos_of_ne_zero h
      exact_mod_cast Nat.succ_le_of_lt (by omega)
    rw [div_le_one hpos]
    push_cast
    linarith

lemma two_le_f64MAX : (2 : ℚ) ≤ f64MAX := by
  unfold f64MAX
  norm_num

lemma dist_lt_f64MAX {acc : ℚ} (h0 : 0 ≤ acc) (h1 : acc ≤ 1) (a b c m : ℕ) :
    |acc - accuracy a b c m| < f64MAX := by
  have hn := accuracy_nonneg a b c m
  have hl := accuracy_le_one a b c m
  have hbig := two_le_f64MAX
  rw [abs_sub_lt_iff]
  constructor <;> linarith

lemma bestFold_mem_aux (cands : List (ℕ × ℕ × ℕ)) (dist : ℕ × ℕ × ℕ → ℚ) :
    ∀ init : ℚ × ℕ × ℕ × ℕ, (bestFold cands dist init).2 = init.2 ∨
      ∃ c ∈ cands, (bestFold cands dist init).2 = (c.1, c.2.1, c.2.2) := by
  induction cands with
  | nil => intro init; left; rfl
  | cons c rest ih =>
      intro init
      unfold bestFold at ih ⊢
      simp only [List.foldl_cons]
      by_cases h : dist c < init.1
      · rw [if_pos h]
        rcases ih (dist c, c.1, c.2.1, c.2.2) with h' | ⟨c', hc', h'⟩
        · right; exact ⟨c, List.mem_cons_self c rest, h'⟩
        · right; exact ⟨c', List.mem_cons_of_mem c hc', h'⟩
      · rw [if_neg h]
        rcases ih init with h' | ⟨c', hc', h'⟩
        · left; exact h'
        · right; exact ⟨c', List.mem_cons_of_mem c hc', h'⟩

lemma bestFold_snd_mem (cands : List (ℕ × ℕ × ℕ)) (dist : ℕ × ℕ × ℕ → ℚ)
    (init : ℚ × ℕ × ℕ × ℕ) (hne : cands ≠ [])
    (hall : ∀ c ∈ cands, dist c < init.1) :
    ∃ c ∈ cands, (bestFold cands dist init).2 = (c.1, c.2.1, c.2.2) := by
  cases cands with
  | nil => exact absurd rfl hne
  | cons c rest =>
      have h : dist c < init.1 := hall c (List.mem_cons_self c rest)
      unfold bestFold
      simp only [List.foldl_cons]
      rw [if_pos h]
      rcases bestFold_mem_aux rest dist (dist c, c.1, c.2.1, c.2.2) with h' | ⟨c', hc', h'⟩
      · exact ⟨c, List.mem_cons_self c rest, h'⟩
      · exact ⟨c', List.mem_cons_of_mem c hc', h'⟩

lemma bestFold_sum (cands : List (ℕ × ℕ × ℕ)) (dist : ℕ × ℕ × ℕ → ℚ)
    (init : ℚ × ℕ × ℕ × ℕ) (S : ℕ) (hne : cands ≠ [])
    (hall : ∀ c ∈ cands, dist c < init.1)
    (hsum : ∀ c ∈ cands, c.1 + c.2.1 + c.2.2 = S) :
    (bestFold cands dist init).2.1 + (bestFold cands dist init).2.2.1 +
      (bestFold cands dist init).2.2.2 = S := by
  obtain ⟨c, hc, heq⟩ := bestFold_snd_mem cands dist init hne hall
  rw [heq]
  exact hsum c hc

lemma mem_searchRange {lo hi x : ℕ} : x ∈ searchRange lo hi ↔ lo ≤ x ∧ x ≤ hi := by
  unfold searchRange
  simp only [List.mem_map, List.mem_range]
  constructor
  · rintro ⟨i, hi, rfl⟩; omega
  · rintro ⟨h1, h2⟩; exact ⟨x - lo, by omega, by omega⟩

lemma searchRange_ne_nil {lo hi : ℕ} (h : lo ≤ hi) : searchRange lo hi ≠ [] :=
  List.ne_nil_of_mem (mem_searchRange.mpr ⟨le_rfl, h⟩)

lemma floorU32_le_ceilU32 (q : ℚ) : floorU32 q ≤ ceilU32 q :=
  min_le_min (Int.toNat_le_toNat (Int.floor_le_ceil q)) le_rfl

lemma searchN300Fixed_sum {acc : ℚ} (targetTotal : ℚ)
    (nRemaining n300₀ n100₀ n50₀ misses : ℕ) (h0 : 0 ≤ acc) (h1 : acc ≤ 1) :
    (searchN300Fixed acc targetTotal nRemaining n300₀ n100₀ n50₀ misses).1 +
      (searchN300Fixed acc targetTotal nRemaining n300₀ n100₀ n50₀ misses).2.1 +
      (searchN300Fixed acc targetTotal nRemaining n300₀ n100₀ n50₀ misses).2.2 =
      nRemaining := by
  unfold searchN300Fixed
  simp only
  rw [bestFold_sum _ _ _ (min n300₀ nRemaining + (nRemaining - min n300₀ nRemaining))]
  · omega
  · exact fun h => searchRange_ne_nil
      (min_le_min le_rfl (floorU32_le_ceilU32 _)) (List.map_eq_nil_iff.mp h)
  · exact fun c _ => dist_lt_f64MAX h0 h1 c.1 c.2.1 c.2.2 misses
  · rintro c hc
    obtain ⟨new100, hmem, rfl⟩ := List.mem_map.mp hc
    have := (mem_searchRange.mp hmem).2
    simp only
    omega

lemma searchN100Fixed_sum {acc : ℚ} (targetTotal : ℚ)
    (nRemaining n300₀ n100₀ n50₀ misses : ℕ) (h0 : 0 ≤ acc) (h1 : acc ≤ 1) :
    (searchN100Fixed acc targetTotal nRemaining n300₀ n100₀ n50₀ misses).1 +
      (searchN100Fixed acc targetTotal nRemaining n300₀ n100₀ n50₀ misses).2.1 +
      (searchN100Fixed acc targetTotal nRemaining n300₀ n100₀ n50₀ misses).2.2 =
      nRemaining := by
  unfold searchN100Fixed
  simp only
  rw [bestFold_sum _ _ _ (min n100₀ nRemaining + (nRemaining - min n100₀ nRemaining))]
  · omega
  · exact fun h => searchRange_ne_nil
      (min_le_min le_rfl (floorU32_le_ceilU32 _)) (List.map_eq_nil_iff.mp h)
  · exact fun c _ => dist_lt_f64MAX h0 h1 c.1 c.2.1 c.2.2 misses
  · rintro c hc
    obtain ⟨new300, hmem, rfl⟩ := List.mem_map.mp hc
    have := (mem_searchRange.mp hmem).2
    simp only
    omega

lemma searchN50Fixed_sum {acc : ℚ} (targetTotal : ℚ)
    (nObjects nRemaining n300₀ n100₀ n50₀ misses : ℕ) (h0 : 0 ≤ acc) (h1 : acc ≤ 1) :
    (searchN50Fixed acc targetTotal nObjects nRemaining n300₀ n100₀ n50₀ misses).1 +
      (searchN50Fixed acc targetTotal nObjects nRemaining n300₀ n100₀ n50₀ misses).2.1 +
      (searchN50Fixed acc targetTotal nObjects nRemaining n300₀ n100₀ n50₀ misses).2.2 =
      nRemaining := by
  unfold searchN50Fixed
  simp only
  rw [bestFold_sum _ _ _ (min n50₀ nRemaining + (nRemaining - min n50₀ nRemaining))]
  · omega
  · exact fun h => searchRange_ne_nil
      (min_le_min le_rfl (floorU32_le_ceilU32 _)) (List.map_eq_nil_iff.mp h)
  · exact fun c _ => dist_lt_f64MAX h0 h1 c.1 c.2.1 c.2.2 misses
  · rintro c hc
    obtain ⟨new300, hmem, rfl⟩ := List.mem_map.mp hc
    have := (mem_searchRange.mp hmem).2
    simp only
    omega

lemma searchFreeCands_spec (targetTotal : ℚ) (nRemaining : ℕ) :
    ∀ c ∈ searchFreeCands targetTotal nRemaining,
      c.1 + c.2.1 + c.2.2 = nRemaining := by
  intro c hc
  unfold searchFreeCands at hc
  obtain ⟨new300, h300, hinner⟩ := List.mem_flatMap.mp hc
  obtain ⟨new100, h100, rfl⟩ := List.mem_map.mp hinner
  have hb300 := (mem_searchRange.mp h300).2
  have hb100 := (mem_searchRange.mp h100).2
  simp only
  omega

lemma searchFreeCands_ne_nil (targetTotal : ℚ) (nRemaining : ℕ) :
    searchFreeCands targetTotal nRemaining ≠ [] := by
  unfold searchFreeCands
  simp only
  apply List.ne_nil_of_mem
    (a := (min nRemaining (floorU32 ((targetTotal - (nRemaining : ℚ)) / 5)),
      min (floorU32 (targetTotal -
          ((nRemaining +
            5 * min nRemaining (floorU32 ((targetTotal - (nRemaining : ℚ)) / 5)) : ℕ) : ℚ)))
        (nRemaining - min nRemaining (floorU32 ((targetTotal - (nRemaining : ℚ)) / 5))),
      nRemaining - min nRemaining (floorU32 ((targetTotal - (nRemaining : ℚ)) / 5)) -
        min (floorU32 (targetTotal -
            ((nRemaining +
              5 * min nRemaining (floorU32 ((targetTotal - (nRemaining : ℚ)) / 5)) : ℕ) : ℚ)))
          (nRemaining - min nRemaining (floorU32 ((targetTotal - (nRemaining : ℚ)) / 5)))))
  apply List.mem_flatMap.mpr
  refine ⟨min nRemaining (floorU32 ((targetTotal - (nRemaining : ℚ)) / 5)),
    mem_searchRange.mpr ⟨le_rfl, min_le_min le_rfl (floorU32_le_ceilU32 _)⟩, ?_⟩
  apply List.mem_map.mpr
  exact ⟨_, mem_searchRange.mpr ⟨le_rfl, min_le_min (floorU32_le_ceilU32 _) le_rfl⟩, rfl⟩

lemma priorityShift_sum (priority : HitResultPriority) (t : ℕ × ℕ × ℕ) :
    (priorityShift priority t).1 + (priorityShift priority t).2.1 +
      (priorityShift priority t).2.2 = t.1 + t.2.1 + t.2.2 := by
  rcases priority <;> simp only [priorityShift] <;> omega

lemma searchFree_sum {acc : ℚ} (targetTotal : ℚ)
    (nRemaining n300₀ n100₀ n50₀ misses : ℕ) (priority : HitResultPriority)
    (h0 : 0 ≤ acc) (h1 : acc ≤ 1) :
    (searchFree acc targetTotal nRemaining n300₀ n100₀ n50₀ misses priority).1 +
      (searchFree acc targetTotal nRemaining n300₀ n100₀ n50₀ misses priority).2.1 +
      (searchFree acc targetTotal nRemaining n300₀ n100₀ n50₀ misses priority).2.2 =
      nRemaining := by
  unfold searchFree
  simp only
  rw [priorityShift_sum]
  have hkey := bestFold_sum (searchFreeCands targetTotal nRemaining)
    (fun c => |acc - accuracy c.1 c.2.1 c.2.2 misses|) (f64MAX, n300₀, n100₀, n50₀)
    nRemaining (searchFreeCands_ne_nil targetTotal nRemaining)
    (fun c _ => dist_lt_f64MAX h0 h1 c.1 c.2.1 c.2.2 misses)
    (searchFreeCands_spec targetTotal nRemaining)
  exact hkey

lemma generate_state_total (nObjects maxCombo : ℕ)
    (n300I n100I n50I missesI comboI : Option ℕ)
    (accI : Option ℚ) (priority : HitResultPriority)
    (hacc : ∀ a, accI = some a → 0 ≤ a ∧ a ≤ 1)
    (hsum : n300I.getD 0 + n100I.getD 0 + n50I.getD 0 + missesI.getD 0 ≤ nObjects) :
    (generateState nObjects maxCombo n300I n100I n50I missesI comboI accI priority).n300 +
      (generateState nObjects maxCombo n300I n100I n50I missesI comboI accI priority).n100 +
      (generateState nObjects maxCombo n300I n100I n50I missesI comboI accI priority).n50 +
      (generateState nObjects maxCombo n300I n100I n50I missesI comboI accI priority).misses =
      nObjects := by
  have hb : ∀ a, accI = some a → 0 ≤ a ∧ a ≤ 1 := hacc
  rcases missesI with _ | mv <;> rcases accI with _ | av <;>
    rcases n300I with _ | v3 <;> rcases n100I with _ | v1 <;> rcases n50I with _ | v5 <;>
    rcases priority <;>
    simp only [generateState, Option.getD_some, Option.getD_none] at hsum ⊢ <;>
    first
      | omega
      | (rw [searchN300Fixed_sum _ _ _ _ _ _ (hb av rfl).1 (hb av rfl).2]; omega)
      | (rw [searchN100Fixed_sum _ _ _ _ _ _ (hb av rfl).1 (hb av rfl).2]; omega)
      | (rw [searchN50Fixed_sum _ _ _ _ _ _ _ (hb av rfl).1 (hb av rfl).2]; omega)
      | (rw [searchFree_sum _ _ _ _ _ _ _ (hb av rfl).1 (hb av rfl).2]; omega)

/-! ### C5: hitresult accounting -/

/-- **C5, counterexample.** With `n_objects = 1`, no accuracy, and all of
`n300 = n100 = n50 = 1` specified (misses unspecified), `generate_state`
clamps each count to `1` and the remaining slack is `0`, yielding the state
`(1, 1, 1, 0)` whose hitresult total `3` exceeds `n_objects = 1`. -/
theorem generate_state_accounting_counterexample :
    ¬((generateState 1 1 (some 1) (some 1) (some 1) none none none .bestCase).n300 +
        (generateState 1 1 (some 1) (some 1) (some 1) none none none .bestCase).n100 +
        (generateState 1 1 (some 1) (some 1) (some 1) none none none .bestCase).n50 +
        (generateState 1 1 (some 1) (some 1) (some 1) none none none .bestCase).misses ≤ 1) := by
  decide

/-- **C5, amended.** Provided the caller-specified counts together with the
misses do not exceed `n_objects`, every score state produced by
`generate_state` satisfies `n300 + n100 + n50 + misses ≤ n_objects`, with
equality whenever at least one of `n300`/`n100`/`n50` was left unspecified or
an accuracy target was supplied (`OsuPerformance::generate_state`,
`src/osu/performance/mod.rs` lines 299–479). -/
theorem generate_state_hitresult_accounting (nObjects maxCombo : ℕ)
    (n300I n100I n50I missesI comboI : Option ℕ)
    (accI : Option ℚ) (priority : HitResultPriority)
    (hacc : ∀ a, accI = some a → 0 ≤ a ∧ a ≤ 1)
    (hsum : n300I.getD 0 + n100I.getD 0 + n50I.getD 0 + missesI.getD 0 ≤ nObjects) :
    (generateState nObjects maxCombo n300I n100I n50I missesI comboI accI priority).n300 +
        (generateState nObjects maxCombo n300I n100I n50I missesI comboI accI priority).n100 +
        (generateState nObjects maxCombo n300I n100I n50I missesI comboI accI priority).n50 +
        (generateState nObjects maxCombo n300I n100I n50I missesI comboI accI priority).misses ≤
        nObjects ∧
      ((n300I = none ∨ n100I = none ∨ n50I = none ∨ accI.isSome) →
        (generateState nObjects maxCombo n300I n100I n50I missesI comboI accI priority).n300 +
          (generateState nObjects maxCombo n300I n100I n50I missesI comboI accI priority).n100 +
          (generateState nObjects maxCombo n300I n100I n50I missesI comboI accI priority).n50 +
          (generateState nObjects maxCombo n300I n100I n50I missesI comboI accI priority).misses =
          nObjects) := by
  have htot := generate_state_total nObjects maxCombo n300I n100I n50I missesI comboI
    accI priority hacc hsum
  exact ⟨le_of_eq htot, fun _ => htot⟩

/-- Witness for the amended C5 theorem: the synthetic ten-object map with an
accuracy target of 0.95 and nothing else specified. -/
theorem generate_state_hitresult_accounting_witness :
    (∀ a : ℚ, (some (95 / 100 : ℚ) : Option ℚ) = some a → 0 ≤ a ∧ a ≤ 1) ∧
      (Option.getD (α := ℕ) none 0 + Option.getD (α := ℕ) none 0 +
          Option.getD (α := ℕ) none 0 + Option.getD (α := ℕ) none 0 ≤ 10) ∧
      ((generateState 10 10 none none none none none (some (95 / 100)) .bestCase).n300 +
          (generateState 10 10 none none none none none (some (95 / 100)) .bestCase).n100 +
          (generateState 10 10 none none none none none (some (95 / 100)) .bestCase).n50 +
          (generateState 10 10 none none none none none (some (95 / 100)) .bestCase).misses ≤
          10) := by
  have hacc : ∀ a : ℚ, (some (95 / 100 : ℚ) : Option ℚ) = some a → 0 ≤ a ∧ a ≤ 1 := by
    rintro a ha
    injection ha with ha
    rw [← ha]
    norm_num
  have hsum : Option.getD (α := ℕ) none 0 + Option.getD (α := ℕ) none 0 +
      Option.getD (α := ℕ) none 0 + Option.getD (α := ℕ) none 0 ≤ 10 := by norm_num
  exact ⟨hacc, hsum,
    (generate_state_hitresult_accounting 10 10 none none none none none
      (some (95 / 100)) .bestCase hacc hsum).1⟩

/-! ### C6: BestCase vs WorstCase accuracy -/

lemma accuracy_eq_of {a b c a' b' c' : ℕ} (m : ℕ)
    (h6 : 6 * a' + 2 * b' + c' = 6 * a + 2 * b + c) (ht : a' + b' + c' = a + b + c) :
    accuracy a' b' c' m = accuracy a b c m := by
  unfold accuracy
  have hden : a' + b' + c' + m = a + b + c + m := by omega
  rw [hden]
  split_ifs with h
  · rfl
  · have h6' : ((6 * a' + 2 * b' + c' : ℕ) : ℚ) = ((6 * a + 2 * b + c : ℕ) : ℚ) := by
      exact_mod_cast congrArg (Nat.cast (R := ℚ)) h6
    rw [h6']

lemma priorityShift_accuracy (priority : HitResultPriority) (t : ℕ × ℕ × ℕ) (m : ℕ) :
    accuracy (priorityShift priority t).1 (priorityShift priority t).2.1
        (priorityShift priority t).2.2 m =
      accuracy t.1 t.2.1 t.2.2 m := by
  obtain ⟨t3, t1, t5⟩ := t
  rcases priority <;> simp only [priorityShift] <;> apply accuracy_eq_of <;> omega

lemma searchFree_accuracy_eq (acc targetTotal : ℚ)
    (nRemaining n300₀ n100₀ n50₀ misses : ℕ)
    (p q : HitResultPriority) :
    accuracy (searchFree acc targetTotal nRemaining n300₀ n100₀ n50₀ misses p).1
        (searchFree acc targetTotal nRemaining n300₀ n100₀ n50₀ misses p).2.1
        (searchFree acc targetTotal nRemaining n300₀ n100₀ n50₀ misses p).2.2 misses =
      accuracy (searchFree acc targetTotal nRemaining n300₀ n100₀ n50₀ misses q).1
        (searchFree acc targetTotal nRemaining n300₀ n100₀ n50₀ misses q).2.1
        (searchFree acc targetTotal nRemaining n300₀ n100₀ n50₀ misses q).2.2 misses := by
  unfold searchFree
  simp only
  rw [priorityShift_accuracy, priorityShift_accuracy]

/-- **C6.** For any accuracy target with none of `n300`/`n100`/`n50`
specified and all other inputs equal, the accuracy of the state synthesised
under BestCase priority is greater than or equal to the accuracy of the state
synthesised under WorstCase priority — in fact the two tie-break shifts leave
the weighted hit total and the hit count unchanged, so the accuracies are
equal (`OsuPerformance::generate_state`, `src/osu/performance/mod.rs`
lines 404–445). -/
theorem bestcase_accuracy_ge_worstcase (nObjects maxCombo : ℕ)
    (missesI comboI : Option ℕ) (a : ℚ) :
    accuracy
        (generateState nObjects maxCombo none none none missesI comboI (some a) .bestCase).n300
        (generateState nObjects maxCombo none none none missesI comboI (some a) .bestCase).n100
        (generateState nObjects maxCombo none none none missesI comboI (some a) .bestCase).n50
        (generateState nObjects maxCombo none none none missesI comboI (some a) .bestCase).misses
      ≥ accuracy
        (generateState nObjects maxCombo none none none missesI comboI (some a) .worstCase).n300
        (generateState nObjects maxCombo none none none missesI comboI (some a) .worstCase).n100
        (generateState nObjects maxCombo none none none missesI comboI (some a) .worstCase).n50
        (generateState nObjects maxCombo none none none missesI comboI (some a) .worstCase).misses := by
  simp only [generateState]
  exact le_of_eq (searchFree_accuracy_eq a _ _ 0 0 0 _ .worstCase .bestCase)

/-! ## Gradual evaluation (`src/catch/performance/gradual.rs`)

`CatchGradualPerformance::nth` is in the sources but the
`CatchGradualDifficulty` it drives is not, so the cursor semantics is
modelled from spec §4.5. The mode-specific difficulty calculation and the
performance combination are opaque functions `diffCalc`/`perfCalc`: the
equivalence is purely about which object prefix and which `passed_objects`
value reach them. -/

/-- Modelled from the spec: `CatchGradualDifficulty` (not under `src/`);
spec §4.5: it holds the converted object sequence and an internal `idx`
cursor. -/
structure CatchGradualDifficulty (α : Type) where
  objects : List α
  idx : ℕ

/-- Modelled from the spec: `CatchGradualDifficulty::nth` (not under
`src/`); spec §4.5: `next(n)` advances the cursor by `n + 1` objects, feeds
them to the skills, and produces a snapshot of the difficulty attributes of
the objects so far; it returns the no-more-objects sentinel when the cursor
runs past the end. -/
def CatchGradualDifficulty.nth {α A : Type} (diffCalc : List α → A)
    (g : CatchGradualDifficulty α) (n : ℕ) :
    Option (A × CatchGradualDifficulty α) :=
  let newIdx := g.idx + n + 1
  if newIdx ≤ g.objects.length then
    some (diffCalc (g.objects.take newIdx), { g with idx := newIdx })
  else none

/-- `CatchGradualPerformance::nth` (`src/catch/performance/gradual.rs`
lines 119–131): take the `n`-th gradual difficulty snapshot and run the
performance calculation on it with `passed_objects` set to the advanced
cursor `self.difficulty.idx`. -/
def catchGradualPerformanceNth {α A S P : Type} (diffCalc : List α → A)
    (perfCalc : A → S → ℕ → P) (g : CatchGradualDifficulty α) (state : S)
    (n : ℕ) : Option P :=
  match CatchGradualDifficulty.nth diffCalc g n with
  | none => none
  | some (attrs, g') => some (perfCalc attrs state g'.idx)

/-- The non-gradual calculation with an explicit `passed_objects`: the
difficulty stage consumes the first `passed` objects and the performance
stage receives the same `passed_objects` cap. -/
def catchPerformanceCalc {α A S P : Type} (diffCalc : List α → A)
    (perfCalc : A → S → ℕ → P) (objects : List α) (state : S) (passed : ℕ) : P :=
  perfCalc (diffCalc (objects.take passed)) state passed

/-- **C4.** For every object sequence, difficulty/performance calculation and
score state, and every `k < n_objects`, the `k`-th yield of a freshly
constructed gradual performance calculator equals the non-gradual calculation
with `passed_objects = k + 1` on the same inputs
(`CatchGradualPerformance::nth`, `src/catch/performance/gradual.rs`
lines 104–131). -/
theorem gradual_nth_eq_nonGradual {α A S P : Type} (diffCalc : List α → A)
    (perfCalc : A → S → ℕ → P) (objects : List α) (state : S) (k : ℕ)
    (hk : k < objects.length) :
    catchGradualPerformanceNth diffCalc perfCalc ⟨objects, 0⟩ state k =
      some (catchPerformanceCalc diffCalc perfCalc objects state (k + 1)) := by
  unfold catchGradualPerformanceNth CatchGradualDifficulty.nth catchPerformanceCalc
  simp only
  rw [if_pos (by simpa using hk)]
  simp only [Nat.zero_add]

/-- Witness for C4 at a concrete three-object sequence with `k = 1` and
concrete difficulty/performance functions. -/
theorem gradual_nth_eq_nonGradual_witness :
    (1 < [10, 20, 30].length) ∧
      catchGradualPerformanceNth (fun l => l.sum) (fun a s p => a + s + p)
          ⟨[10, 20, 30], 0⟩ 7 1 =
        some (catchPerformanceCalc (fun l => l.sum) (fun a s p => a + s + p)
          [10, 20, 30] 7 2) :=
  ⟨by norm_num,
    gradual_nth_eq_nonGradual (fun l => l.sum) (fun a s p => a + s + p)
      [10, 20, 30] 7 1 (by norm_num)⟩

end PPlus
